import Mathlib

/-!
# Portfolio aggregator of the UK dairy environmental dashboard

A shallow embedding of the `portfolioMetrics` computation of `src/src/App.jsx`
(lines 109-154) together with the data it reads, of the sample farm generator
and the threshold table (lines 5-64), of `getRiskLevel` (lines 180-185) and of
the chat mock `sendMessage` (lines 188-209) as a transition system.

## Numbers

JavaScript numbers are modelled by `JSNum`: a finite value is an exact
rational, and the three special values `NaN`, `Infinity` and `-Infinity`
are kept, because the program can produce them (`0 / 0` is `NaN`).
Rounding of finite results is not modelled, and there is a single zero,
read as `+0`; every zero divisor of the aggregator is an array length,
which is `+0`.
-/

set_option autoImplicit false

namespace EnvMon

/-! ## JavaScript numbers -/

/-- Values of the JavaScript number type: exact finite values and the three
special values. -/
inductive JSNum where
  | fin (q : ℚ)
  | posInf
  | negInf
  | nan
  deriving DecidableEq

namespace JSNum

/-- Conversion of an array length (a natural number) to a number. -/
def ofNat (n : Nat) : JSNum := fin (n : ℚ)

/-- JavaScript `a + b` on numbers. -/
def add : JSNum → JSNum → JSNum
  | nan, _ => nan
  | _, nan => nan
  | fin a, fin b => fin (a + b)
  | fin _, posInf => posInf
  | fin _, negInf => negInf
  | posInf, fin _ => posInf
  | negInf, fin _ => negInf
  | posInf, posInf => posInf
  | negInf, negInf => negInf
  | posInf, negInf => nan
  | negInf, posInf => nan

/-- Product of an infinity of the given sign (`true` is positive) with a
finite value: `NaN` for zero, otherwise the infinity with the product sign. -/
def infTimes (positive : Bool) (a : ℚ) : JSNum :=
  if a = 0 then nan
  else if (0 < a) = positive then posInf else negInf

/-- JavaScript `a * b` on numbers. -/
def mul : JSNum → JSNum → JSNum
  | nan, _ => nan
  | _, nan => nan
  | fin a, fin b => fin (a * b)
  | fin a, posInf => infTimes true a
  | fin a, negInf => infTimes false a
  | posInf, fin b => infTimes true b
  | negInf, fin b => infTimes false b
  | posInf, posInf => posInf
  | negInf, negInf => posInf
  | posInf, negInf => negInf
  | negInf, posInf => negInf

/-- JavaScript `a / b` on numbers. A zero divisor is `+0`: a positive
dividend gives `Infinity`, a negative one `-Infinity`, and `0 / 0` is `NaN`. -/
def div : JSNum → JSNum → JSNum
  | nan, _ => nan
  | _, nan => nan
  | fin a, fin b =>
    if b = 0 then
      (if a = 0 then nan else if 0 < a then posInf else negInf)
    else fin (a / b)
  | fin _, posInf => fin 0
  | fin _, negInf => fin 0
  | posInf, fin b => if 0 ≤ b then posInf else negInf
  | negInf, fin b => if 0 ≤ b then negInf else posInf
  | posInf, posInf => nan
  | negInf, negInf => nan
  | posInf, negInf => nan
  | negInf, posInf => nan

/-- JavaScript `a <= b` on numbers: false as soon as one side is `NaN`. -/
def le : JSNum → JSNum → Bool
  | nan, _ => false
  | _, nan => false
  | fin a, fin b => decide (a ≤ b)
  | negInf, _ => true
  | _, posInf => true
  | posInf, _ => false
  | fin _, negInf => false

/-- JavaScript `a > b` on numbers: false as soon as one side is `NaN`. -/
def gt : JSNum → JSNum → Bool
  | nan, _ => false
  | _, nan => false
  | fin a, fin b => decide (b < a)
  | posInf, posInf => false
  | posInf, _ => true
  | negInf, _ => false
  | fin _, posInf => false
  | fin _, negInf => true

instance : Zero JSNum := ⟨fin 0⟩
instance : Add JSNum := ⟨add⟩
instance : Mul JSNum := ⟨mul⟩
instance : Div JSNum := ⟨div⟩

/-- A number is real-valued when it is a finite value. -/
def IsReal (x : JSNum) : Prop := ∃ q : ℚ, x = fin q

end JSNum

/-! ## Data model -/

/-- The `compliance` object of a farm record. -/
structure Compliance where
  tnfd : Bool
  nvz : Bool
  sfi : Bool
  waterPermit : Bool
  deriving DecidableEq

/-- The `metrics` object of a farm record. -/
structure Metrics where
  waterEfficiency : JSNum
  biodiversityScore : JSNum
  nutrientEfficiency : JSNum
  soilHealth : JSNum
  carbonFootprint : JSNum
  riskScore : JSNum
  deriving DecidableEq

/-- One farm record, as built by `generateSampleFarms`. The timestamp
`lastUpdated` is kept as milliseconds since the epoch. -/
structure Farm where
  id : String
  name : String
  region : String
  type : String
  area : JSNum
  cows : JSNum
  milkYield : JSNum
  compliance : Compliance
  metrics : Metrics
  lastUpdated : Int
  alerts : Nat
  deriving DecidableEq

/-- The `inputs` state bag; the defaults are those of `defaultInputs`. -/
structure Inputs where
  selectedRegion : String := "all"
  selectedFarmType : String := "all"
  selectedCompliance : String := "all"
  farmArea : JSNum := JSNum.fin 100
  dairyCows : JSNum := JSNum.fin 120
  milkPerCow : JSNum := JSNum.fin 7000
  waterSources : JSNum := JSNum.fin 3
  storageCapacity : JSNum := JSNum.fin 5000
  recyclingRate : JSNum := JSNum.fin 40
  dischargePoints : JSNum := JSNum.fin 2
  coverCropArea : JSNum := JSNum.fin 20
  hedgerowLength : JSNum := JSNum.fin 5
  wetlandArea : JSNum := JSNum.fin 2
  woodlandArea : JSNum := JSNum.fin 8
  nvzCompliant : Bool := true
  waterPermitValid : Bool := true
  sfiEnrolled : Bool := false
  csEnrolled : Bool := true
  nitrogenEfficiency : JSNum := JSNum.fin 65
  phosphorusEfficiency : JSNum := JSNum.fin 70
  soilOrganicMatter : JSNum := JSNum.fin (16 / 5)
  biodiversityIndex : JSNum := JSNum.fin 45
  deriving DecidableEq

/-- The `complianceRates` object of the summary. -/
structure ComplianceRates where
  tnfd : JSNum
  nvz : JSNum
  sfi : JSNum
  waterPermit : JSNum
  deriving DecidableEq

/-- The `riskDistribution` object of the summary. -/
structure RiskDistribution where
  low : Nat
  medium : Nat
  high : Nat
  critical : Nat
  deriving DecidableEq

/-- The object returned by `portfolioMetrics`. -/
structure PortfolioMetrics where
  totalFarms : Nat
  totalArea : JSNum
  totalCows : JSNum
  totalMilk : JSNum
  avgBiodiversity : JSNum
  avgWaterEfficiency : JSNum
  avgNutrientEfficiency : JSNum
  complianceRates : ComplianceRates
  riskDistribution : RiskDistribution
  filteredFarms : List Farm
  deriving DecidableEq

/-! ## The aggregator -/

/-- Lines 119-153 of the `portfolioMetrics` memo body: the reductions over
the filtered list and the returned object. -/
def summarize (filteredFarms : List Farm) : PortfolioMetrics :=
  let totalFarms := filteredFarms.length
  let totalArea := filteredFarms.foldl (fun sum f => sum + f.area) (JSNum.fin 0)
  let totalCows := filteredFarms.foldl (fun sum f => sum + f.cows) (JSNum.fin 0)
  let totalMilk :=
    filteredFarms.foldl (fun sum f => sum + f.cows * f.milkYield) (JSNum.fin 0)
  let avgBiodiversity :=
    filteredFarms.foldl (fun sum f => sum + f.metrics.biodiversityScore) (JSNum.fin 0)
      / JSNum.ofNat totalFarms
  let avgWaterEfficiency :=
    filteredFarms.foldl (fun sum f => sum + f.metrics.waterEfficiency) (JSNum.fin 0)
      / JSNum.ofNat totalFarms
  let avgNutrientEfficiency :=
    filteredFarms.foldl (fun sum f => sum + f.metrics.nutrientEfficiency) (JSNum.fin 0)
      / JSNum.ofNat totalFarms
  let complianceRates : ComplianceRates :=
    { tnfd :=
        JSNum.ofNat (filteredFarms.filter (fun f => f.compliance.tnfd)).length
          / JSNum.ofNat totalFarms * JSNum.fin 100
      nvz :=
        JSNum.ofNat (filteredFarms.filter (fun f => f.compliance.nvz)).length
          / JSNum.ofNat totalFarms * JSNum.fin 100
      sfi :=
        JSNum.ofNat (filteredFarms.filter (fun f => f.compliance.sfi)).length
          / JSNum.ofNat totalFarms * JSNum.fin 100
      waterPermit :=
        JSNum.ofNat (filteredFarms.filter (fun f => f.compliance.waterPermit)).length
          / JSNum.ofNat totalFarms * JSNum.fin 100 }
  let riskDistribution : RiskDistribution :=
    { low :=
        (filteredFarms.filter (fun f => f.metrics.riskScore.le (JSNum.fin 25))).length
      medium :=
        (filteredFarms.filter (fun f =>
          f.metrics.riskScore.gt (JSNum.fin 25) && f.metrics.riskScore.le (JSNum.fin 50))).length
      high :=
        (filteredFarms.filter (fun f =>
          f.metrics.riskScore.gt (JSNum.fin 50) && f.metrics.riskScore.le (JSNum.fin 75))).length
      critical :=
        (filteredFarms.filter (fun f => f.metrics.riskScore.gt (JSNum.fin 75))).length }
  { totalFarms := totalFarms
    totalArea := totalArea
    totalCows := totalCows
    totalMilk := totalMilk / JSNum.fin 1000000
    avgBiodiversity := avgBiodiversity
    avgWaterEfficiency := avgWaterEfficiency
    avgNutrientEfficiency := avgNutrientEfficiency
    complianceRates := complianceRates
    riskDistribution := riskDistribution
    filteredFarms := filteredFarms }

/-- The body of the `portfolioMetrics` memo (`App.jsx` lines 109-154): the two
conditional filters of lines 110-117, then the reductions of `summarize`. -/
def portfolioMetrics (farms : List Farm) (inputs : Inputs) : PortfolioMetrics :=
  let filteredFarms := farms
  let filteredFarms :=
    if inputs.selectedRegion != "all" then
      filteredFarms.filter (fun f => f.region == inputs.selectedRegion)
    else filteredFarms
  let filteredFarms :=
    if inputs.selectedFarmType != "all" then
      filteredFarms.filter (fun f => f.type == inputs.selectedFarmType)
    else filteredFarms
  summarize filteredFarms

/-! ## Specification-side notions -/

/-- The four fixed severity bands of the risk distribution. -/
inductive RiskBand where
  | low
  | medium
  | high
  | critical
  deriving DecidableEq

/-- Spec-side band membership, in the words of the specification: low when
score ≤ 25, medium when 25 < score ≤ 50, high when 50 < score ≤ 75, critical
when score > 75. The order is that of the rationals on finite scores,
`-Infinity` is below and `Infinity` above every bound, and `NaN` is in no
band. -/
def inBand : RiskBand → JSNum → Bool
  | .low, .fin q => decide (q ≤ 25)
  | .medium, .fin q => decide (25 < q ∧ q ≤ 50)
  | .high, .fin q => decide (50 < q ∧ q ≤ 75)
  | .critical, .fin q => decide (75 < q)
  | .low, .negInf => true
  | .critical, .posInf => true
  | _, _ => false

/-- Spec-side compliance rate of a flag over a list of farms: the number of
farms whose flag is true, divided by the number of farms, times 100. -/
def ratePercent (flag : Farm → Bool) (l : List Farm) : ℚ :=
  (l.countP flag : ℚ) / (l.length : ℚ) * 100

/-- A number is a finite value within the closed interval from `lo` to `hi`. -/
def JSNum.InRange (lo hi : ℚ) (x : JSNum) : Prop :=
  ∃ q : ℚ, x = JSNum.fin q ∧ lo ≤ q ∧ q ≤ hi

/-- Spec-side selection predicate: the region matches the selected region or
the selection is "all", and likewise for the farm type. -/
def Selected (inputs : Inputs) (f : Farm) : Prop :=
  (inputs.selectedRegion = "all" ∨ f.region = inputs.selectedRegion) ∧
  (inputs.selectedFarmType = "all" ∨ f.type = inputs.selectedFarmType)

instance (inputs : Inputs) (f : Farm) : Decidable (Selected inputs f) := by
  unfold Selected
  infer_instance

/-! ## Sample data -/

/-- A sample record, with the first id, name, region and type of the generator. -/
def greenValley : Farm :=
  { id := "FARM_001", name := "Green Valley Farm", region := "Southwest",
    type := "Intensive Dairy",
    area := JSNum.fin 100, cows := JSNum.fin 100, milkYield := JSNum.fin 7000,
    compliance := { tnfd := true, nvz := true, sfi := false, waterPermit := true },
    metrics :=
      { waterEfficiency := JSNum.fin 80, biodiversityScore := JSNum.fin 40,
        nutrientEfficiency := JSNum.fin 60, soilHealth := JSNum.fin 3,
        carbonFootprint := JSNum.fin 1000, riskScore := JSNum.fin 10 },
    lastUpdated := 0, alerts := 0 }

/-- A second sample record. -/
def hillTop : Farm :=
  { id := "FARM_002", name := "Hill Top Farm", region := "Northwest",
    type := "Mixed Farming",
    area := JSNum.fin 150, cows := JSNum.fin 100, milkYield := JSNum.fin 8000,
    compliance := { tnfd := false, nvz := true, sfi := true, waterPermit := true },
    metrics :=
      { waterEfficiency := JSNum.fin 70, biodiversityScore := JSNum.fin 50,
        nutrientEfficiency := JSNum.fin 50, soilHealth := JSNum.fin 4,
        carbonFootprint := JSNum.fin 1200, riskScore := JSNum.fin 60 },
    lastUpdated := 0, alerts := 2 }

/-- A third sample record, in the same region as the first. -/
def oakTree : Farm :=
  { id := "FARM_003", name := "Oak Tree Farm", region := "Southwest",
    type := "Grass-Fed Dairy",
    area := JSNum.fin 90, cows := JSNum.fin 200, milkYield := JSNum.fin 6500,
    compliance := { tnfd := true, nvz := false, sfi := false, waterPermit := true },
    metrics :=
      { waterEfficiency := JSNum.fin 90, biodiversityScore := JSNum.fin 60,
        nutrientEfficiency := JSNum.fin 70, soilHealth := JSNum.fin 2,
        carbonFootprint := JSNum.fin 900, riskScore := JSNum.fin 90 },
    lastUpdated := 0, alerts := 1 }

/-- A small farm collection. -/
def sampleFarms : List Farm := [greenValley, hillTop, oakTree]

/-- A selection that retains no farm of `sampleFarms`: a region and type
pairing that is not present in the data. -/
def emptySelection : Inputs :=
  { selectedRegion := "Southwest", selectedFarmType := "Organic Dairy" }

/-- A selection that retains two farms of `sampleFarms`. -/
def southwestSelection : Inputs := { selectedRegion := "Southwest" }

/-- The record `f` with its risk score replaced. -/
def withRiskScore (f : Farm) (r : JSNum) : Farm :=
  { f with metrics := { f.metrics with riskScore := r } }

/-- The record `f` with its herd size and yield per animal replaced. -/
def withHerd (f : Farm) (cows milkYield : JSNum) : Farm :=
  { f with cows := cows, milkYield := milkYield }

/-- The filter step with the two conditional filters in the other order:
the farm-type filter of lines 115-117 first, the region filter of lines
112-114 second. Used to compare against the order of the code. -/
def filterTypeFirst (farms : List Farm) (inputs : Inputs) : List Farm :=
  let filteredFarms := farms
  let filteredFarms :=
    if inputs.selectedFarmType != "all" then
      filteredFarms.filter (fun f => f.type == inputs.selectedFarmType)
    else filteredFarms
  let filteredFarms :=
    if inputs.selectedRegion != "all" then
      filteredFarms.filter (fun f => f.region == inputs.selectedRegion)
    else filteredFarms
  filteredFarms

/-- Two farm records agree on every field that the aggregator reads: region,
type, area, cows, milkYield, the compliance flags, and the biodiversity,
water-efficiency, nutrient-efficiency and risk scores. -/
def AgreeOnAggregated (f g : Farm) : Prop :=
  f.region = g.region ∧ f.type = g.type ∧ f.area = g.area ∧ f.cows = g.cows ∧
  f.milkYield = g.milkYield ∧ f.compliance = g.compliance ∧
  f.metrics.biodiversityScore = g.metrics.biodiversityScore ∧
  f.metrics.waterEfficiency = g.metrics.waterEfficiency ∧
  f.metrics.nutrientEfficiency = g.metrics.nutrientEfficiency ∧
  f.metrics.riskScore = g.metrics.riskScore

/-- The record `f` with its informational fields replaced. -/
def withFreshness (f : Farm) (lastUpdated : Int) (alerts : Nat) : Farm :=
  { f with lastUpdated := lastUpdated, alerts := alerts }

/-- The sample collection with other timestamps and alert counts. -/
def sampleFarmsRefreshed : List Farm :=
  [withFreshness greenValley 86400000 4, withFreshness hillTop 172800000 0,
    withFreshness oakTree 259200000 3]

/-! ## The sample farm generator -/

/-- JavaScript `a < b` on numbers: false as soon as one side is `NaN`. -/
def JSNum.lt : JSNum → JSNum → Bool
  | .nan, _ => false
  | _, .nan => false
  | .fin a, .fin b => decide (a < b)
  | .negInf, .negInf => false
  | .negInf, _ => true
  | .posInf, _ => false
  | .fin _, .posInf => true
  | .fin _, .negInf => false

/-- One entry of the `TNFD_THRESHOLDS` table. -/
structure Thresholds where
  low : JSNum
  medium : JSNum
  high : JSNum
  critical : JSNum
  deriving DecidableEq

/-- The `TNFD_THRESHOLDS` table (lines 5-13), as the list of its keys and
values in source order. -/
def TNFD_THRESHOLDS : List (String × Thresholds) :=
  [ ("waterStress",
      { low := JSNum.fin 10, medium := JSNum.fin 20, high := JSNum.fin 40,
        critical := JSNum.fin 80 }),
    ("biodiversityRisk",
      { low := JSNum.fin 20, medium := JSNum.fin 40, high := JSNum.fin 70,
        critical := JSNum.fin 90 }),
    ("nutrientRunoff",
      { low := JSNum.fin 15, medium := JSNum.fin 30, high := JSNum.fin 50,
        critical := JSNum.fin 75 }),
    ("soilDegradation",
      { low := JSNum.fin 10, medium := JSNum.fin 25, high := JSNum.fin 45,
        critical := JSNum.fin 70 }),
    ("floodRisk",
      { low := JSNum.fin 5, medium := JSNum.fin 15, high := JSNum.fin 30,
        critical := JSNum.fin 50 }),
    ("droughtRisk",
      { low := JSNum.fin 10, medium := JSNum.fin 25, high := JSNum.fin 45,
        critical := JSNum.fin 70 }) ]

/-- The `regions` array of `generateSampleFarms`. -/
def regions : List String :=
  ["Southwest", "Northwest", "Midlands", "Yorkshire", "Southeast"]

/-- The `farmTypes` array of `generateSampleFarms`. -/
def farmTypes : List String :=
  ["Intensive Dairy", "Mixed Farming", "Grass-Fed Dairy", "Organic Dairy"]

/-- The array of name stems indexed in the `name` template of line 41. -/
def farmNames : List String :=
  ["Green Valley", "Hill Top", "Oak Tree", "River Side", "Meadow View", "Spring Field",
    "Manor", "Willow", "Pine Ridge", "Stone Bridge", "Elm Grove", "Heather"]

/-- JavaScript `s.padStart(targetLength, c)` for a one-character pad string. -/
def padStart (s : String) (targetLength : Nat) (padChar : Char) : String :=
  String.mk (List.replicate (targetLength - s.length) padChar) ++ s

/-- The integer kept by `new Date(t)` for a finite time value `t`: the value
truncated towards zero. -/
def truncToInt (q : ℚ) : Int := if 0 ≤ q then ⌊q⌋ else ⌈q⌉

/-- The record built for index `i` by the callback of `Array.from` (lines
39-63). `Math.random()` is called 15 times per record, in the order of the
object literal; `rand k` is the value of call number `k` of the whole run and
`now i` the value of `Date.now()` while record `i` is built. -/
def generateFarm (rand : Nat → ℚ) (now : Nat → Int) (i : Nat) : Farm :=
  let random := fun (j : Nat) => JSNum.fin (rand (15 * i + j))
  { id := "FARM_" ++ padStart (toString (i + 1)) 3 '0'
    name := farmNames.getD i "undefined" ++ " Farm"
    region := regions.getD (i % regions.length) "undefined"
    type := farmTypes.getD (i % farmTypes.length) "undefined"
    area := JSNum.fin 80 + random 0 * JSNum.fin 120
    cows := JSNum.fin 100 + random 1 * JSNum.fin 150
    milkYield := JSNum.fin 6000 + random 2 * JSNum.fin 3000
    compliance :=
      { tnfd := (random 3).gt (JSNum.fin 0.3)
        nvz := (random 4).gt (JSNum.fin 0.2)
        sfi := (random 5).gt (JSNum.fin 0.4)
        waterPermit := (random 6).gt (JSNum.fin 0.1) }
    metrics :=
      { waterEfficiency := JSNum.fin 60 + random 7 * JSNum.fin 35
        biodiversityScore := JSNum.fin 30 + random 8 * JSNum.fin 60
        nutrientEfficiency := JSNum.fin 40 + random 9 * JSNum.fin 45
        soilHealth := JSNum.fin 2 + random 10 * JSNum.fin 2.5
        carbonFootprint := JSNum.fin 800 + random 11 * JSNum.fin 800
        riskScore := random 12 * JSNum.fin 100 }
    lastUpdated :=
      truncToInt ((now i : ℚ) - rand (15 * i + 13) * 30 * 24 * 60 * 60 * 1000)
    alerts := (⌊rand (15 * i + 14) * 5⌋).toNat }

/-- The function `generateSampleFarms`: `Array.from` over the indices 0 to 11. -/
def generateSampleFarms (rand : Nat → ℚ) (now : Nat → Int) : List Farm :=
  (List.range 12).map (generateFarm rand now)

/-- A random source is valid when every value it returns is in `[0, 1)`. -/
def ValidRandom (rand : Nat → ℚ) : Prop := ∀ k : Nat, 0 ≤ rand k ∧ rand k < 1

/-- A constant random source, returning one quarter at every call. -/
def quarterRandom : Nat → ℚ := fun _ => 1 / 4

/-- A random source whose values differ from call to call: call `k` returns
`(k mod 180) / 180`. -/
def rampRandom : Nat → ℚ := fun k => ((k % 180 : Nat) : ℚ) / 180

/-- A clock that stands still at the epoch. -/
def epochClock : Nat → Int := fun _ => 0

/-- The lookup of line 616, `farms.find(f => f.id === selectedFarm)`. -/
def findFarm (farms : List Farm) (selectedFarm : String) : Option Farm :=
  farms.find? (fun f => f.id == selectedFarm)

/-! ## Risk level -/

/-- The object returned by `getRiskLevel`. -/
structure RiskLevel where
  level : String
  color : String
  bg : String
  deriving DecidableEq

/-- The function `getRiskLevel` (lines 180-185). -/
def getRiskLevel (score : JSNum) : RiskLevel :=
  if score.le (JSNum.fin 25) then
    { level := "Low", color := "text-green-600", bg := "bg-green-100" }
  else if score.le (JSNum.fin 50) then
    { level := "Medium", color := "text-yellow-600", bg := "bg-yellow-100" }
  else if score.le (JSNum.fin 75) then
    { level := "High", color := "text-orange-600", bg := "bg-orange-100" }
  else { level := "Critical", color := "text-red-600", bg := "bg-red-100" }

/-! ## The chat mock -/

/-- One entry of the chat transcript. The three list fields are present only
on assistant messages. -/
structure ChatMessage where
  type : String
  content : String
  actionItems : Option (List String) := none
  schemeOpportunities : Option (List String) := none
  riskAlerts : Option (List String) := none
  deriving DecidableEq

/-- The fixed assistant message appended by the timer callback (lines 200-206). -/
def demoReply : ChatMessage :=
  { type := "assistant"
    content :=
      "This is a demo response. To enable AI assistance, please configure your API key."
    actionItems := some ["Configure API credentials", "Review TNFD documentation"]
    schemeOpportunities := some ["SFI enrollment available"]
    riskAlerts := some [] }

/-- The chat part of the component state, with the delays of the callbacks
that `setTimeout` has scheduled and that have not fired yet. -/
structure ChatState where
  chatMessages : List ChatMessage
  currentMessage : String
  isLoading : Bool
  pendingTimers : List Nat
  deriving DecidableEq

/-- The initial chat state of lines 102-104: no message, an empty input, not
loading, and nothing scheduled. -/
def initialChat : ChatState :=
  { chatMessages := [], currentMessage := "", isLoading := false, pendingTimers := [] }

/-- The characters removed by JavaScript `trim`: white space and line
terminators. -/
def isJSWhitespace (c : Char) : Bool :=
  let n := c.toNat
  n == 0x09 || n == 0x0A || n == 0x0B || n == 0x0C || n == 0x0D || n == 0x20 ||
  n == 0xA0 || n == 0x1680 || (0x2000 ≤ n && n ≤ 0x200A) || n == 0x2028 ||
  n == 0x2029 || n == 0x202F || n == 0x205F || n == 0x3000 || n == 0xFEFF

/-- JavaScript `s.trim()`. -/
def jsTrim (s : String) : String :=
  String.mk (((s.toList.dropWhile isJSWhitespace).reverse.dropWhile isJSWhitespace).reverse)

/-- The guard of line 189 lets the submission through: the trimmed message is
not empty and no reply is being awaited. -/
def sendAccepts (s : ChatState) : Bool :=
  !(jsTrim s.currentMessage == "" || s.isLoading)

/-- The function `sendMessage` (lines 188-209) as a state update: the state
after the call, with the callback of `setTimeout` added to the pending timers. -/
def sendMessage (s : ChatState) : ChatState :=
  if jsTrim s.currentMessage == "" || s.isLoading then s
  else
    let userMessage := jsTrim s.currentMessage
    let newMessages := s.chatMessages ++ [{ type := "user", content := userMessage }]
    { chatMessages := newMessages
      currentMessage := ""
      isLoading := true
      pendingTimers := s.pendingTimers ++ [1000] }

/-- The body of the callback passed to `setTimeout` (lines 199-208). -/
def timerCallback (s : ChatState) : ChatState :=
  { s with chatMessages := s.chatMessages ++ [demoReply], isLoading := false }

/-- The oldest pending timer fires: it leaves the pending timers and its
callback runs. Nothing happens when no timer is pending. -/
def fireTimer (s : ChatState) : Option ChatState :=
  match s.pendingTimers with
  | [] => none
  | _ :: rest => some (timerCallback { s with pendingTimers := rest })

/-- One step of the chat: the input is edited (`setCurrentMessage`),
`sendMessage` is called, or a pending timer fires. -/
inductive ChatStep : ChatState → ChatState → Prop where
  | edit (s : ChatState) (text : String) : ChatStep s { s with currentMessage := text }
  | send (s : ChatState) : ChatStep s (sendMessage s)
  | fire (s t : ChatState) (h : fireTimer s = some t) : ChatStep s t

/-- The chat states reachable from the initial state. -/
inductive Reachable : ChatState → Prop where
  | init : Reachable initialChat
  | step (s t : ChatState) (hs : Reachable s) (h : ChatStep s t) : Reachable t

/-- The number of transcript entries of the given type. -/
def countType (type : String) (messages : List ChatMessage) : Nat :=
  messages.countP (fun m => m.type == type)

/-- A state in which a question has been typed and not yet sent. -/
def typedChat : ChatState := { initialChat with currentMessage := "  Which farms?  " }

/-- The Southwest selection with the third dropdown set to "compliant". -/
def compliantSouthwest : Inputs :=
  { selectedRegion := "Southwest", selectedCompliance := "compliant" }

/-! ## Selections offered by the filter dropdowns -/

/-- The inputs with the given region and farm type selected and every other
field at its default. -/
def selection (region farmType : String) : Inputs :=
  { selectedRegion := region, selectedFarmType := farmType }

/-- The 20 pairs of a region option and a farm-type option other than "all"
(the options of the two selects of lines 364-387). -/
def regionTypeSelections : List (String × String) := regions.product farmTypes

/-- The indices of the generated records that a selection retains; the region
and type of record `i` are `regions[i % 5]` and `farmTypes[i % 4]`. -/
def retainedIndices (inputs : Inputs) : List Nat :=
  (List.range 12).filter (fun i =>
    decide
      ((inputs.selectedRegion = "all" ∨
          regions.getD (i % regions.length) "undefined" = inputs.selectedRegion) ∧
        (inputs.selectedFarmType = "all" ∨
          farmTypes.getD (i % farmTypes.length) "undefined" = inputs.selectedFarmType)))

/-! ## The metric card -/

/-- JavaScript `a - b` on numbers. -/
def JSNum.sub : JSNum → JSNum → JSNum
  | .nan, _ => .nan
  | _, .nan => .nan
  | .fin a, .fin b => .fin (a - b)
  | .fin _, .posInf => .negInf
  | .fin _, .negInf => .posInf
  | .posInf, .fin _ => .posInf
  | .negInf, .fin _ => .negInf
  | .posInf, .negInf => .posInf
  | .negInf, .posInf => .negInf
  | .posInf, .posInf => .nan
  | .negInf, .negInf => .nan

instance : Sub JSNum := ⟨JSNum.sub⟩

/-- JavaScript truthiness of a number: false for zero and for `NaN`. -/
def JSNum.truthy : JSNum → Bool
  | .fin q => decide (q ≠ 0)
  | .nan => false
  | .posInf => true
  | .negInf => true

/-- Truthiness of the `status` prop of `MetricCard`: a number, or `undefined`
(here `none`) when the card is used without it. -/
def statusTruthy : Option JSNum → Bool
  | none => false
  | some x => x.truthy

/-- The object literal used by `MetricCard` when `status` is falsy (line 212). -/
def neutralConfig : RiskLevel :=
  { level := "", color := "text-gray-600", bg := "bg-gray-100" }

/-- The constant `statusConfig` of `MetricCard` (line 212). -/
def statusConfig (status : Option JSNum) : RiskLevel :=
  match status with
  | none => neutralConfig
  | some x => if x.truthy then getRiskLevel x else neutralConfig

/-- The value of the expression of lines 222-226: the badge element with its
class name and text, or the falsy `status` itself, which is no element. -/
inductive BadgeSlot where
  | falsy (status : Option JSNum)
  | badge (className : String) (text : String)
  deriving DecidableEq

/-- The expression `status && (<span ...>...</span>)` of lines 222-226. -/
def badgeSlot (status : Option JSNum) : BadgeSlot :=
  if statusTruthy status then
    BadgeSlot.badge
      ("px-3 py-1 rounded-full text-xs font-medium " ++ (statusConfig status).bg ++ " " ++
        (statusConfig status).color)
      (statusConfig status).level
  else BadgeSlot.falsy status

/-- The slot holds a badge element. -/
def BadgeSlot.isBadge : BadgeSlot → Bool
  | .falsy _ => false
  | .badge _ _ => true

/-- The `status` prop of the TNFD Compliance card (line 336). -/
def tnfdCardStatus (summary : PortfolioMetrics) : JSNum :=
  JSNum.fin 100 - summary.complianceRates.tnfd

/-! ## The derived TNFD metrics -/

/-- The `landMetrics` object of `tnfdMetrics`. -/
structure LandMetrics where
  naturalHabitat : JSNum
  ecosystemConnectivity : JSNum → JSNum
  soilHealth : JSNum

/-- The `waterMetrics` object of `tnfdMetrics`. -/
structure WaterMetrics where
  withdrawalIntensity : JSNum
  treatmentEfficiency : JSNum
  dischargeQuality : JSNum

/-- The `biodiversityMetrics` object of `tnfdMetrics`. -/
structure BiodiversityMetrics where
  intactnessIndex : JSNum
  speciesRichness : JSNum
  pollinatorSupport : JSNum

/-- The object returned by `tnfdMetrics`. -/
structure TnfdMetrics where
  landMetrics : LandMetrics
  waterMetrics : WaterMetrics
  biodiversityMetrics : BiodiversityMetrics

/-- The body of the `tnfdMetrics` memo (lines 157-177), as a function of the
portfolio summary it reads. -/
def tnfdMetrics (summary : PortfolioMetrics) : TnfdMetrics :=
  let farms := summary.filteredFarms
  { landMetrics :=
      { naturalHabitat :=
          farms.foldl (fun sum f => sum + f.area * JSNum.fin 0.15) (JSNum.fin 0)
        ecosystemConnectivity := fun avgBiodiversity => avgBiodiversity / JSNum.fin 100
        soilHealth :=
          farms.foldl (fun sum f => sum + f.metrics.soilHealth) (JSNum.fin 0)
            / JSNum.ofNat farms.length }
    waterMetrics :=
      { withdrawalIntensity :=
          farms.foldl (fun sum f => sum + f.cows * JSNum.fin 50) (JSNum.fin 0)
        treatmentEfficiency := summary.avgWaterEfficiency
        dischargeQuality :=
          JSNum.ofNat (farms.filter (fun f => f.compliance.waterPermit)).length
            / JSNum.ofNat farms.length * JSNum.fin 100 }
    biodiversityMetrics :=
      { intactnessIndex := summary.avgBiodiversity
        speciesRichness :=
          farms.foldl (fun sum f => sum + f.metrics.biodiversityScore * JSNum.fin 0.8)
            (JSNum.fin 0) / JSNum.ofNat farms.length
        pollinatorSupport :=
          JSNum.ofNat
              (farms.filter (fun f => f.metrics.biodiversityScore.gt (JSNum.fin 60))).length
            / JSNum.ofNat farms.length * JSNum.fin 100 } }

/-- A chat state whose input holds only white space. -/
def blankChat : ChatState := { initialChat with currentMessage := " \t\n" }

/-- A chat state that awaits a reply while a new question has been typed. -/
def loadingChat : ChatState :=
  { chatMessages := [{ type := "user", content := "Which farms?" }]
    currentMessage := "And then?"
    isLoading := true
    pendingTimers := [1000] }

/-! ## Arithmetic of `JSNum` -/

namespace JSNum

@[simp] theorem fin_add_fin (a b : ℚ) : fin a + fin b = fin (a + b) := rfl

@[simp] theorem fin_mul_fin (a b : ℚ) : fin a * fin b = fin (a * b) := rfl

theorem fin_div_fin (a b : ℚ) (hb : b ≠ 0) : fin a / fin b = fin (a / b) := by
  show div (fin a) (fin b) = fin (a / b)
  simp [div, hb]

@[simp] theorem zero_div_zero : fin 0 / fin 0 = nan := by
  show div (fin 0) (fin 0) = nan
  simp [div]

@[simp] theorem nan_mul (x : JSNum) : nan * x = nan := by
  show mul nan x = nan
  cases x <;> rfl

theorem zero_def : (0 : JSNum) = fin 0 := rfl

theorem add_assoc_js (a b c : JSNum) : a + b + c = a + (b + c) := by
  show add (add a b) c = add a (add b c)
  cases a <;> cases b <;> cases c <;> simp [add, add_assoc]

theorem add_zero_js (a : JSNum) : a + fin 0 = a := by
  show add a (fin 0) = a
  cases a <;> simp [add]

theorem zero_add_js (a : JSNum) : fin 0 + a = a := by
  show add (fin 0) a = a
  cases a <;> simp [add]

end JSNum

/-! ## Folds and sums -/

/-- The left fold of `reduce((sum, f) => sum + g(f), a)` is `a` plus the sum
of the values of `g`. -/
theorem foldl_add_eq_add_sum (g : Farm → JSNum) (l : List Farm) (a : JSNum) :
    l.foldl (fun sum f => sum + g f) a = a + (l.map g).sum := by
  induction l generalizing a with
  | nil => simp [JSNum.zero_def, JSNum.add_zero_js]
  | cons x xs ih =>
    simp only [List.foldl_cons, List.map_cons, List.sum_cons]
    rw [ih, JSNum.add_assoc_js]

/-- The reduction from `0` used throughout the aggregator is the sum. -/
theorem foldl_add_eq_sum (g : Farm → JSNum) (l : List Farm) :
    l.foldl (fun sum f => sum + g f) (JSNum.fin 0) = (l.map g).sum := by
  rw [foldl_add_eq_add_sum, JSNum.zero_add_js]

/-! ## The filter step -/

/-- The two conditional filters retain exactly the selected farms. -/
theorem filteredFarms_eq_filter (farms : List Farm) (inputs : Inputs) :
    (portfolioMetrics farms inputs).filteredFarms =
      farms.filter (fun f => decide (Selected inputs f)) := by
  simp only [portfolioMetrics, summarize, Selected]
  by_cases hr : inputs.selectedRegion = "all" <;>
    by_cases ht : inputs.selectedFarmType = "all"
  · simp [hr, ht]
  · simp only [hr, ht, bne_self_eq_false, Bool.false_eq_true, if_false, true_or, true_and,
      false_or, bne_iff_ne, ne_eq, not_false_eq_true, if_true]
    apply List.filter_congr
    intro f _
    by_cases h : f.type = inputs.selectedFarmType <;> simp [h]
  · simp only [hr, ht, bne_self_eq_false, Bool.false_eq_true, if_false, true_or, and_true,
      false_or, bne_iff_ne, ne_eq, not_false_eq_true, if_true]
    apply List.filter_congr
    intro f _
    by_cases h : f.region = inputs.selectedRegion <;> simp [h]
  · simp only [hr, ht, false_or, bne_iff_ne, ne_eq, not_false_eq_true, if_true,
      List.filter_filter]
    apply List.filter_congr
    intro f _
    by_cases h : f.region = inputs.selectedRegion <;>
      by_cases h2 : f.type = inputs.selectedFarmType <;> simp [h, h2]

/-- The summary is the reduction of its own filtered list. -/
theorem portfolioMetrics_eq_summarize (farms : List Farm) (inputs : Inputs) :
    portfolioMetrics farms inputs =
      summarize (portfolioMetrics farms inputs).filteredFarms := rfl

/-- A rate over a non-empty list is the spec-side percentage. -/
theorem rate_eq_ratePercent (flag : Farm → Bool) (l : List Farm) (h : l ≠ []) :
    JSNum.ofNat (l.filter flag).length / JSNum.ofNat l.length * JSNum.fin 100 =
      JSNum.fin (ratePercent flag l) := by
  have hlen : (l.length : ℚ) ≠ 0 := by
    have : l.length ≠ 0 := fun h0 => h (List.length_eq_zero.mp h0)
    exact_mod_cast this
  simp only [JSNum.ofNat, ratePercent]
  rw [JSNum.fin_div_fin _ _ hlen, JSNum.fin_mul_fin, List.countP_eq_length_filter]

/-- The spec-side percentage lies between 0 and 100. -/
theorem ratePercent_bounds (flag : Farm → Bool) (l : List Farm) :
    0 ≤ ratePercent flag l ∧ ratePercent flag l ≤ 100 := by
  unfold ratePercent
  have hle : (l.countP flag : ℚ) ≤ (l.length : ℚ) := by
    exact_mod_cast List.countP_le_length flag
  have h0 : (0 : ℚ) ≤ (l.countP flag : ℚ) := by positivity
  have hl : (0 : ℚ) ≤ (l.length : ℚ) := by positivity
  constructor
  · positivity
  · have h1 : (l.countP flag : ℚ) / (l.length : ℚ) ≤ 1 := div_le_one_of_le₀ hle hl
    linarith

/-- Every number other than `NaN` lies in exactly one band of the code. -/
theorem band_indicator_sum (x : JSNum) (hx : x ≠ JSNum.nan) :
    (if x.le (JSNum.fin 25) then 1 else 0) +
      (if (x.gt (JSNum.fin 25) && x.le (JSNum.fin 50)) then 1 else 0) +
      (if (x.gt (JSNum.fin 50) && x.le (JSNum.fin 75)) then 1 else 0) +
      (if x.gt (JSNum.fin 75) then 1 else 0) = 1 := by
  cases x with
  | nan => exact absurd rfl hx
  | posInf => simp [JSNum.le, JSNum.gt]
  | negInf => simp [JSNum.le, JSNum.gt]
  | fin q =>
    simp only [JSNum.le, JSNum.gt]
    by_cases h1 : q ≤ 25
    · have h2 : q ≤ 50 := by linarith
      have h3 : q ≤ 75 := by linarith
      have h4 : ¬ 25 < q := by linarith
      have h5 : ¬ 50 < q := by linarith
      have h6 : ¬ 75 < q := by linarith
      simp [h1, h2, h3, h4, h5, h6]
    · by_cases h2 : q ≤ 50
      · have h3 : q ≤ 75 := by linarith
        have h4 : 25 < q := by linarith
        have h5 : ¬ 50 < q := by linarith
        have h6 : ¬ 75 < q := by linarith
        simp [h1, h2, h3, h4, h5, h6]
      · by_cases h3 : q ≤ 75
        · have h4 : 25 < q := by linarith
          have h5 : 50 < q := by linarith
          have h6 : ¬ 75 < q := by linarith
          simp [h1, h2, h3, h4, h5, h6]
        · have h4 : 25 < q := by linarith
          have h5 : 50 < q := by linarith
          have h6 : 75 < q := by linarith
          simp [h1, h2, h3, h4, h5, h6]

/-- The four bucket counts of a list without `NaN` scores add up to its length. -/
theorem bucket_counts_sum (l : List Farm)
    (h : ∀ f ∈ l, f.metrics.riskScore ≠ JSNum.nan) :
    (summarize l).riskDistribution.low + (summarize l).riskDistribution.medium +
      (summarize l).riskDistribution.high + (summarize l).riskDistribution.critical =
      l.length := by
  simp only [summarize]
  induction l with
  | nil => simp
  | cons x xs ih =>
    have hx := band_indicator_sum x.metrics.riskScore (h x (List.mem_cons_self _ _))
    have hxs := ih (fun f hf => h f (List.mem_cons_of_mem _ hf))
    simp only [List.filter_cons, List.length_cons]
    split_ifs at hx ⊢ <;> simp_all <;> omega

/-- The band tests of the code agree with the spec-side band membership. -/
theorem code_band_eq_inBand (x : JSNum) :
    x.le (JSNum.fin 25) = inBand .low x ∧
    (x.gt (JSNum.fin 25) && x.le (JSNum.fin 50)) = inBand .medium x ∧
    (x.gt (JSNum.fin 50) && x.le (JSNum.fin 75)) = inBand .high x ∧
    x.gt (JSNum.fin 75) = inBand .critical x := by
  cases x <;> simp [JSNum.le, JSNum.gt, inBand]

/-! ## Empty filtered set -/

/-- Claim C1, counterexample: for the sample collection and a region and type
pairing that no farm has, the filtered set is empty and none of the three
means and four compliance rates is the number 0. -/
theorem empty_filter_not_zero :
    (portfolioMetrics sampleFarms emptySelection).filteredFarms = [] ∧
    (portfolioMetrics sampleFarms emptySelection).avgBiodiversity ≠ JSNum.fin 0 ∧
    (portfolioMetrics sampleFarms emptySelection).avgWaterEfficiency ≠ JSNum.fin 0 ∧
    (portfolioMetrics sampleFarms emptySelection).avgNutrientEfficiency ≠ JSNum.fin 0 ∧
    (portfolioMetrics sampleFarms emptySelection).complianceRates.tnfd ≠ JSNum.fin 0 ∧
    (portfolioMetrics sampleFarms emptySelection).complianceRates.nvz ≠ JSNum.fin 0 ∧
    (portfolioMetrics sampleFarms emptySelection).complianceRates.sfi ≠ JSNum.fin 0 ∧
    (portfolioMetrics sampleFarms emptySelection).complianceRates.waterPermit ≠
      JSNum.fin 0 := by
  have h : (portfolioMetrics sampleFarms emptySelection).filteredFarms = [] := by decide
  rw [portfolioMetrics_eq_summarize, h]
  simp [summarize, JSNum.ofNat]

/-- Claim C1, amended: whenever the filtered set is empty the aggregator
divides by the zero farm count without any check, and the three means and the
four compliance rates are all `NaN`. -/
theorem empty_filter_yields_nan (farms : List Farm) (inputs : Inputs)
    (h : (portfolioMetrics farms inputs).filteredFarms = []) :
    (portfolioMetrics farms inputs).avgBiodiversity = JSNum.nan ∧
    (portfolioMetrics farms inputs).avgWaterEfficiency = JSNum.nan ∧
    (portfolioMetrics farms inputs).avgNutrientEfficiency = JSNum.nan ∧
    (portfolioMetrics farms inputs).complianceRates.tnfd = JSNum.nan ∧
    (portfolioMetrics farms inputs).complianceRates.nvz = JSNum.nan ∧
    (portfolioMetrics farms inputs).complianceRates.sfi = JSNum.nan ∧
    (portfolioMetrics farms inputs).complianceRates.waterPermit = JSNum.nan := by
  rw [portfolioMetrics_eq_summarize, h]
  simp [summarize, JSNum.ofNat]

/-- Witness of `empty_filter_yields_nan` on the sample collection. -/
theorem empty_filter_yields_nan_witness :
    (portfolioMetrics sampleFarms emptySelection).filteredFarms = [] ∧
    ((portfolioMetrics sampleFarms emptySelection).avgBiodiversity = JSNum.nan ∧
    (portfolioMetrics sampleFarms emptySelection).avgWaterEfficiency = JSNum.nan ∧
    (portfolioMetrics sampleFarms emptySelection).avgNutrientEfficiency = JSNum.nan ∧
    (portfolioMetrics sampleFarms emptySelection).complianceRates.tnfd = JSNum.nan ∧
    (portfolioMetrics sampleFarms emptySelection).complianceRates.nvz = JSNum.nan ∧
    (portfolioMetrics sampleFarms emptySelection).complianceRates.sfi = JSNum.nan ∧
    (portfolioMetrics sampleFarms emptySelection).complianceRates.waterPermit =
      JSNum.nan) :=
  ⟨by decide, empty_filter_yields_nan sampleFarms emptySelection (by decide)⟩

/-! ## Risk distribution -/

/-- Every number other than `NaN` lies in exactly one band of the
specification. -/
theorem inBand_existsUnique (x : JSNum) (hx : x ≠ JSNum.nan) :
    ∃! b : RiskBand, inBand b x = true := by
  cases x with
  | nan => exact absurd rfl hx
  | posInf =>
    refine ⟨RiskBand.critical, rfl, fun b hb => ?_⟩
    cases b <;> first | rfl | exact absurd hb (by simp [inBand])
  | negInf =>
    refine ⟨RiskBand.low, rfl, fun b hb => ?_⟩
    cases b <;> first | rfl | exact absurd hb (by simp [inBand])
  | fin q =>
    by_cases h1 : q ≤ 25
    · refine ⟨RiskBand.low, by simp [inBand, h1], fun b hb => ?_⟩
      cases b <;> simp only [inBand, decide_eq_true_eq] at hb <;>
        first | rfl | (exfalso; linarith [hb.1]) | (exfalso; linarith)
    · by_cases h2 : q ≤ 50
      · have h4 : 25 < q := by linarith
        refine ⟨RiskBand.medium, by simp [inBand, h2, h4], fun b hb => ?_⟩
        cases b <;> simp only [inBand, decide_eq_true_eq] at hb <;>
          first | rfl | (exfalso; linarith [hb.1]) | (exfalso; linarith)
      · by_cases h3 : q ≤ 75
        · have h5 : 50 < q := by linarith
          refine ⟨RiskBand.high, by simp [inBand, h3, h5], fun b hb => ?_⟩
          cases b <;> simp only [inBand, decide_eq_true_eq] at hb <;>
            first | rfl | (exfalso; linarith [hb.2]) | (exfalso; linarith)
        · have h6 : 75 < q := by linarith
          refine ⟨RiskBand.critical, by simp [inBand, h6], fun b hb => ?_⟩
          cases b <;> simp only [inBand, decide_eq_true_eq] at hb <;>
            first | rfl | (exfalso; linarith [hb.2]) | (exfalso; linarith)

/-- Claim C2: when every risk score of the collection is real-valued, the
four risk-bucket counts of the summary add up to `totalFarms`, which is the
number of farms of the collection that the selection retains; each bucket
counts the retained farms of its band, and every retained farm lies in
exactly one band. -/
theorem risk_counts_sum_eq_totalFarms (farms : List Farm) (inputs : Inputs)
    (hreal : ∀ f ∈ farms, f.metrics.riskScore.IsReal) :
    (portfolioMetrics farms inputs).riskDistribution.low +
      (portfolioMetrics farms inputs).riskDistribution.medium +
      (portfolioMetrics farms inputs).riskDistribution.high +
      (portfolioMetrics farms inputs).riskDistribution.critical =
      (portfolioMetrics farms inputs).totalFarms ∧
    (portfolioMetrics farms inputs).totalFarms =
      (farms.filter (fun f => decide (Selected inputs f))).length ∧
    (portfolioMetrics farms inputs).riskDistribution.low =
      (farms.filter (fun f => decide (Selected inputs f))).countP
        (fun f => inBand RiskBand.low f.metrics.riskScore) ∧
    (portfolioMetrics farms inputs).riskDistribution.medium =
      (farms.filter (fun f => decide (Selected inputs f))).countP
        (fun f => inBand RiskBand.medium f.metrics.riskScore) ∧
    (portfolioMetrics farms inputs).riskDistribution.high =
      (farms.filter (fun f => decide (Selected inputs f))).countP
        (fun f => inBand RiskBand.high f.metrics.riskScore) ∧
    (portfolioMetrics farms inputs).riskDistribution.critical =
      (farms.filter (fun f => decide (Selected inputs f))).countP
        (fun f => inBand RiskBand.critical f.metrics.riskScore) ∧
    (∀ f ∈ farms.filter (fun f => decide (Selected inputs f)),
      ∃! b : RiskBand, inBand b f.metrics.riskScore = true) := by
  have hnan : ∀ f ∈ farms.filter (fun f => decide (Selected inputs f)),
      f.metrics.riskScore ≠ JSNum.nan := by
    intro f hf
    obtain ⟨q, hq⟩ := hreal f (List.mem_filter.mp hf).1
    rw [hq]
    exact fun hne => JSNum.noConfusion hne
  have hsum := bucket_counts_sum (farms.filter (fun f => decide (Selected inputs f))) hnan
  have hb := fun f : Farm => code_band_eq_inBand f.metrics.riskScore
  rw [portfolioMetrics_eq_summarize, filteredFarms_eq_filter]
  refine ⟨hsum, rfl, ?_, ?_, ?_, ?_, fun f hf => inBand_existsUnique _ (hnan f hf)⟩
  · simp only [summarize, List.countP_eq_length_filter]
    exact congrArg (fun p => (List.filter p _).length) (funext fun f => (hb f).1)
  · simp only [summarize, List.countP_eq_length_filter]
    exact congrArg (fun p => (List.filter p _).length) (funext fun f => (hb f).2.1)
  · simp only [summarize, List.countP_eq_length_filter]
    exact congrArg (fun p => (List.filter p _).length) (funext fun f => (hb f).2.2.1)
  · simp only [summarize, List.countP_eq_length_filter]
    exact congrArg (fun p => (List.filter p _).length) (funext fun f => (hb f).2.2.2)

/-- Witness of `risk_counts_sum_eq_totalFarms` on the sample collection: the
Southwest selection retains the farms with scores 10 and 90, so the buckets
are 1, 0, 0, 1 and `totalFarms` is 2. -/
theorem risk_counts_sum_eq_totalFarms_witness :
    (∀ f ∈ sampleFarms, f.metrics.riskScore.IsReal) ∧
    sampleFarms.filter (fun f => decide (Selected southwestSelection f)) =
      [greenValley, oakTree] ∧
    (portfolioMetrics sampleFarms southwestSelection).riskDistribution =
      { low := 1, medium := 0, high := 0, critical := 1 } ∧
    (portfolioMetrics sampleFarms southwestSelection).totalFarms = 2 ∧
    (portfolioMetrics sampleFarms southwestSelection).riskDistribution.low +
      (portfolioMetrics sampleFarms southwestSelection).riskDistribution.medium +
      (portfolioMetrics sampleFarms southwestSelection).riskDistribution.high +
      (portfolioMetrics sampleFarms southwestSelection).riskDistribution.critical =
      (portfolioMetrics sampleFarms southwestSelection).totalFarms ∧
    (portfolioMetrics sampleFarms southwestSelection).totalFarms =
      (sampleFarms.filter (fun f => decide (Selected southwestSelection f))).length :=
  have hreal : ∀ f ∈ sampleFarms, f.metrics.riskScore.IsReal := by
    intro f hf
    simp only [sampleFarms, List.mem_cons, List.mem_singleton, List.not_mem_nil,
      or_false] at hf
    rcases hf with rfl | rfl | rfl
    · exact ⟨10, rfl⟩
    · exact ⟨60, rfl⟩
    · exact ⟨90, rfl⟩
  have h := risk_counts_sum_eq_totalFarms sampleFarms southwestSelection hreal
  ⟨hreal, by decide, by decide, by decide, h.1, h.2.1⟩

/-- Claim C3: each risk-bucket count is the number of filtered farms whose
risk score lies in the band of the specification (low up to 25, medium above
25 up to 50, high above 50 up to 75, critical above 75); a score of exactly
25, 50 or 75 is counted in the lower band; and three farms with scores 10, 60
and 90 give low 1, medium 0, high 1, critical 1 and 3 farms in total. -/
theorem risk_counts_by_band :
    (∀ (farms : List Farm) (inputs : Inputs),
      (portfolioMetrics farms inputs).riskDistribution.low =
        (portfolioMetrics farms inputs).filteredFarms.countP
          (fun f => inBand .low f.metrics.riskScore) ∧
      (portfolioMetrics farms inputs).riskDistribution.medium =
        (portfolioMetrics farms inputs).filteredFarms.countP
          (fun f => inBand .medium f.metrics.riskScore) ∧
      (portfolioMetrics farms inputs).riskDistribution.high =
        (portfolioMetrics farms inputs).filteredFarms.countP
          (fun f => inBand .high f.metrics.riskScore) ∧
      (portfolioMetrics farms inputs).riskDistribution.critical =
        (portfolioMetrics farms inputs).filteredFarms.countP
          (fun f => inBand .critical f.metrics.riskScore)) ∧
    (∀ b : Farm,
      (portfolioMetrics [withRiskScore b (JSNum.fin 25)] {}).riskDistribution =
        { low := 1, medium := 0, high := 0, critical := 0 } ∧
      (portfolioMetrics [withRiskScore b (JSNum.fin 50)] {}).riskDistribution =
        { low := 0, medium := 1, high := 0, critical := 0 } ∧
      (portfolioMetrics [withRiskScore b (JSNum.fin 75)] {}).riskDistribution =
        { low := 0, medium := 0, high := 1, critical := 0 }) ∧
    (∀ b : Farm,
      (portfolioMetrics [withRiskScore b (JSNum.fin 10), withRiskScore b (JSNum.fin 60),
          withRiskScore b (JSNum.fin 90)] {}).riskDistribution =
        { low := 1, medium := 0, high := 1, critical := 1 } ∧
      (portfolioMetrics [withRiskScore b (JSNum.fin 10), withRiskScore b (JSNum.fin 60),
          withRiskScore b (JSNum.fin 90)] {}).totalFarms = 3) := by
  refine ⟨?_, ?_, ?_⟩
  · intro farms inputs
    rw [portfolioMetrics_eq_summarize]
    generalize (portfolioMetrics farms inputs).filteredFarms = l
    simp only [summarize, List.countP_eq_length_filter]
    have hb := fun f : Farm => code_band_eq_inBand f.metrics.riskScore
    refine ⟨?_, ?_, ?_, ?_⟩
    · exact congrArg (fun p => (List.filter p l).length) (funext fun f => (hb f).1)
    · exact congrArg (fun p => (List.filter p l).length) (funext fun f => (hb f).2.1)
    · exact congrArg (fun p => (List.filter p l).length) (funext fun f => (hb f).2.2.1)
    · exact congrArg (fun p => (List.filter p l).length) (funext fun f => (hb f).2.2.2)
  · intro b
    simp [portfolioMetrics, summarize, withRiskScore, JSNum.le, JSNum.gt]
    norm_num
  · intro b
    simp [portfolioMetrics, summarize, withRiskScore, JSNum.le, JSNum.gt]
    norm_num

/-! ## Compliance rates -/

/-- Claim C4: when the filtered subset is non-empty, each of the four
compliance rates is the number of filtered farms whose flag is true, divided
by the number of filtered farms, times 100, and lies between 0 and 100. -/
theorem compliance_rates_nonempty (farms : List Farm) (inputs : Inputs)
    (h : (portfolioMetrics farms inputs).filteredFarms ≠ []) :
    ((portfolioMetrics farms inputs).complianceRates.tnfd =
        JSNum.fin (ratePercent (fun f => f.compliance.tnfd)
          (portfolioMetrics farms inputs).filteredFarms) ∧
      (portfolioMetrics farms inputs).complianceRates.nvz =
        JSNum.fin (ratePercent (fun f => f.compliance.nvz)
          (portfolioMetrics farms inputs).filteredFarms) ∧
      (portfolioMetrics farms inputs).complianceRates.sfi =
        JSNum.fin (ratePercent (fun f => f.compliance.sfi)
          (portfolioMetrics farms inputs).filteredFarms) ∧
      (portfolioMetrics farms inputs).complianceRates.waterPermit =
        JSNum.fin (ratePercent (fun f => f.compliance.waterPermit)
          (portfolioMetrics farms inputs).filteredFarms)) ∧
    (JSNum.InRange 0 100 (portfolioMetrics farms inputs).complianceRates.tnfd ∧
      JSNum.InRange 0 100 (portfolioMetrics farms inputs).complianceRates.nvz ∧
      JSNum.InRange 0 100 (portfolioMetrics farms inputs).complianceRates.sfi ∧
      JSNum.InRange 0 100 (portfolioMetrics farms inputs).complianceRates.waterPermit) := by
  have key : ∀ flag : Farm → Bool,
      JSNum.ofNat ((portfolioMetrics farms inputs).filteredFarms.filter flag).length /
          JSNum.ofNat (portfolioMetrics farms inputs).filteredFarms.length * JSNum.fin 100 =
        JSNum.fin (ratePercent flag (portfolioMetrics farms inputs).filteredFarms) :=
    fun flag => rate_eq_ratePercent flag _ h
  have rng : ∀ flag : Farm → Bool, JSNum.InRange 0 100
      (JSNum.ofNat ((portfolioMetrics farms inputs).filteredFarms.filter flag).length /
        JSNum.ofNat (portfolioMetrics farms inputs).filteredFarms.length * JSNum.fin 100) :=
    fun flag => ⟨_, key flag, ratePercent_bounds flag _⟩
  exact ⟨⟨key _, key _, key _, key _⟩, rng _, rng _, rng _, rng _⟩

/-- Witness of `compliance_rates_nonempty` on the sample collection. -/
theorem compliance_rates_nonempty_witness :
    (portfolioMetrics sampleFarms southwestSelection).filteredFarms ≠ [] ∧
    (((portfolioMetrics sampleFarms southwestSelection).complianceRates.tnfd =
        JSNum.fin (ratePercent (fun f => f.compliance.tnfd)
          (portfolioMetrics sampleFarms southwestSelection).filteredFarms) ∧
      (portfolioMetrics sampleFarms southwestSelection).complianceRates.nvz =
        JSNum.fin (ratePercent (fun f => f.compliance.nvz)
          (portfolioMetrics sampleFarms southwestSelection).filteredFarms) ∧
      (portfolioMetrics sampleFarms southwestSelection).complianceRates.sfi =
        JSNum.fin (ratePercent (fun f => f.compliance.sfi)
          (portfolioMetrics sampleFarms southwestSelection).filteredFarms) ∧
      (portfolioMetrics sampleFarms southwestSelection).complianceRates.waterPermit =
        JSNum.fin (ratePercent (fun f => f.compliance.waterPermit)
          (portfolioMetrics sampleFarms southwestSelection).filteredFarms)) ∧
    (JSNum.InRange 0 100 (portfolioMetrics sampleFarms southwestSelection).complianceRates.tnfd ∧
      JSNum.InRange 0 100 (portfolioMetrics sampleFarms southwestSelection).complianceRates.nvz ∧
      JSNum.InRange 0 100 (portfolioMetrics sampleFarms southwestSelection).complianceRates.sfi ∧
      JSNum.InRange 0 100
        (portfolioMetrics sampleFarms southwestSelection).complianceRates.waterPermit)) :=
  ⟨by decide, compliance_rates_nonempty sampleFarms southwestSelection (by decide)⟩

/-! ## Filtering -/

/-- Claim C5: the exposed filtered list is exactly the farms of the
collection, in their original order, whose region is the selected region (or
the selection is "all") and whose type is the selected type (or the selection
is "all"); it is a sublist of the collection, and its members are the members
of the collection that satisfy the selection. -/
theorem filteredFarms_spec (farms : List Farm) (inputs : Inputs) :
    (portfolioMetrics farms inputs).filteredFarms =
      farms.filter (fun f => decide (Selected inputs f)) ∧
    List.Sublist (portfolioMetrics farms inputs).filteredFarms farms ∧
    (∀ f : Farm, f ∈ (portfolioMetrics farms inputs).filteredFarms ↔
      f ∈ farms ∧ Selected inputs f) := by
  refine ⟨filteredFarms_eq_filter farms inputs, ?_, ?_⟩
  · rw [filteredFarms_eq_filter]
    exact List.filter_sublist farms
  · intro f
    rw [filteredFarms_eq_filter]
    simp [List.mem_filter]

/-- Claim C6: when both the selected region and the selected farm type are
"all", the filtered list is the entire collection, `totalFarms` is the length
of the collection, and the summary is the reduction of the whole collection. -/
theorem all_selection_whole_collection (farms : List Farm) (inputs : Inputs)
    (hr : inputs.selectedRegion = "all") (ht : inputs.selectedFarmType = "all") :
    (portfolioMetrics farms inputs).filteredFarms = farms ∧
    (portfolioMetrics farms inputs).totalFarms = farms.length ∧
    portfolioMetrics farms inputs = summarize farms := by
  have h : portfolioMetrics farms inputs = summarize farms := by
    simp [portfolioMetrics, hr, ht]
  rw [h]
  exact ⟨rfl, rfl, rfl⟩

/-- Witness of `all_selection_whole_collection` on the sample collection with
the default inputs. -/
theorem all_selection_whole_collection_witness :
    ({} : Inputs).selectedRegion = "all" ∧ ({} : Inputs).selectedFarmType = "all" ∧
    ((portfolioMetrics sampleFarms {}).filteredFarms = sampleFarms ∧
    (portfolioMetrics sampleFarms {}).totalFarms = sampleFarms.length ∧
    portfolioMetrics sampleFarms {} = summarize sampleFarms) :=
  ⟨rfl, rfl, all_selection_whole_collection sampleFarms {} rfl rfl⟩

/-! ## Totals and means -/

/-- Claim C7: `totalMilk` is the sum over the filtered farms of herd size
times yield per animal, divided by 1,000,000; two farms with herd sizes 100
and 100 and yields 7000 and 8000 give 1.5. -/
theorem totalMilk_eq_sum_div_million :
    (∀ (farms : List Farm) (inputs : Inputs),
      (portfolioMetrics farms inputs).totalMilk =
        ((portfolioMetrics farms inputs).filteredFarms.map
          (fun f => f.cows * f.milkYield)).sum / JSNum.fin 1000000) ∧
    (∀ f₁ f₂ : Farm,
      (portfolioMetrics
        [withHerd f₁ (JSNum.fin 100) (JSNum.fin 7000),
          withHerd f₂ (JSNum.fin 100) (JSNum.fin 8000)] {}).totalMilk = JSNum.fin 1.5) := by
  constructor
  · intro farms inputs
    rw [← foldl_add_eq_sum]
    rfl
  · intro f₁ f₂
    simp [portfolioMetrics, summarize, withHerd, JSNum.fin_div_fin]
    norm_num

/-- Claim C8: when the filtered subset is non-empty, each of the three means
is the sum of its metric over the filtered farms divided by the number of
filtered farms; when that sum is the finite value `s`, the mean is the finite
value `s / n`. -/
theorem means_nonempty (farms : List Farm) (inputs : Inputs)
    (h : (portfolioMetrics farms inputs).filteredFarms ≠ []) :
    ((portfolioMetrics farms inputs).avgBiodiversity =
        ((portfolioMetrics farms inputs).filteredFarms.map
          (fun f => f.metrics.biodiversityScore)).sum /
          JSNum.ofNat (portfolioMetrics farms inputs).filteredFarms.length ∧
      (portfolioMetrics farms inputs).avgWaterEfficiency =
        ((portfolioMetrics farms inputs).filteredFarms.map
          (fun f => f.metrics.waterEfficiency)).sum /
          JSNum.ofNat (portfolioMetrics farms inputs).filteredFarms.length ∧
      (portfolioMetrics farms inputs).avgNutrientEfficiency =
        ((portfolioMetrics farms inputs).filteredFarms.map
          (fun f => f.metrics.nutrientEfficiency)).sum /
          JSNum.ofNat (portfolioMetrics farms inputs).filteredFarms.length) ∧
    (∀ s : ℚ,
      (((portfolioMetrics farms inputs).filteredFarms.map
          (fun f => f.metrics.biodiversityScore)).sum = JSNum.fin s →
        (portfolioMetrics farms inputs).avgBiodiversity =
          JSNum.fin (s / (portfolioMetrics farms inputs).filteredFarms.length)) ∧
      (((portfolioMetrics farms inputs).filteredFarms.map
          (fun f => f.metrics.waterEfficiency)).sum = JSNum.fin s →
        (portfolioMetrics farms inputs).avgWaterEfficiency =
          JSNum.fin (s / (portfolioMetrics farms inputs).filteredFarms.length)) ∧
      (((portfolioMetrics farms inputs).filteredFarms.map
          (fun f => f.metrics.nutrientEfficiency)).sum = JSNum.fin s →
        (portfolioMetrics farms inputs).avgNutrientEfficiency =
          JSNum.fin (s / (portfolioMetrics farms inputs).filteredFarms.length))) := by
  have hlen : ((portfolioMetrics farms inputs).filteredFarms.length : ℚ) ≠ 0 := by
    have : (portfolioMetrics farms inputs).filteredFarms.length ≠ 0 :=
      fun h0 => h (List.length_eq_zero.mp h0)
    exact_mod_cast this
  have key : ∀ g : Farm → JSNum,
      (portfolioMetrics farms inputs).filteredFarms.foldl (fun sum f => sum + g f)
          (JSNum.fin 0) / JSNum.ofNat (portfolioMetrics farms inputs).filteredFarms.length =
        ((portfolioMetrics farms inputs).filteredFarms.map g).sum /
          JSNum.ofNat (portfolioMetrics farms inputs).filteredFarms.length :=
    fun g => by rw [foldl_add_eq_sum]
  have fin_key : ∀ (g : Farm → JSNum) (s : ℚ),
      ((portfolioMetrics farms inputs).filteredFarms.map g).sum = JSNum.fin s →
      (portfolioMetrics farms inputs).filteredFarms.foldl (fun sum f => sum + g f)
          (JSNum.fin 0) / JSNum.ofNat (portfolioMetrics farms inputs).filteredFarms.length =
        JSNum.fin (s / (portfolioMetrics farms inputs).filteredFarms.length) :=
    fun g s hs => by rw [key, hs, JSNum.ofNat, JSNum.fin_div_fin _ _ hlen]
  exact ⟨⟨key _, key _, key _⟩, fun s => ⟨fin_key _ s, fin_key _ s, fin_key _ s⟩⟩

/-- Witness of `means_nonempty` on the sample collection: two farms are
retained, their biodiversity scores add up to 100, and the mean is 100 / 2. -/
theorem means_nonempty_witness :
    (portfolioMetrics sampleFarms southwestSelection).filteredFarms ≠ [] ∧
    ((portfolioMetrics sampleFarms southwestSelection).filteredFarms.map
      (fun f => f.metrics.biodiversityScore)).sum = JSNum.fin 100 ∧
    (portfolioMetrics sampleFarms southwestSelection).avgBiodiversity =
      JSNum.fin (100 / (portfolioMetrics sampleFarms southwestSelection).filteredFarms.length) :=
  have hsum : ((portfolioMetrics sampleFarms southwestSelection).filteredFarms.map
      (fun f => f.metrics.biodiversityScore)).sum = JSNum.fin 100 := by
    have hf : (portfolioMetrics sampleFarms southwestSelection).filteredFarms =
        [greenValley, oakTree] := by decide
    rw [hf]
    simp [greenValley, oakTree, JSNum.zero_def]
    norm_num
  ⟨by decide, hsum,
    ((means_nonempty sampleFarms southwestSelection (by decide)).2 100).1 hsum⟩

/-- Claim C9: `totalArea` is the sum of the areas, and `totalCows` the sum of
the herd sizes, of the farms of the collection that the selection retains. On
the sample collection the Southwest selection retains the farms with areas 100
and 90 and herd sizes 100 and 200, so the totals are 190 and 300, and with
nothing selected away they are 340 and 400. -/
theorem totalArea_totalCows_eq_sum :
    (∀ (farms : List Farm) (inputs : Inputs),
      (portfolioMetrics farms inputs).totalArea =
        ((farms.filter (fun f => decide (Selected inputs f))).map (fun f => f.area)).sum ∧
      (portfolioMetrics farms inputs).totalCows =
        ((farms.filter (fun f => decide (Selected inputs f))).map (fun f => f.cows)).sum) ∧
    sampleFarms.filter (fun f => decide (Selected southwestSelection f)) =
      [greenValley, oakTree] ∧
    (portfolioMetrics sampleFarms southwestSelection).totalArea = JSNum.fin 190 ∧
    (portfolioMetrics sampleFarms southwestSelection).totalCows = JSNum.fin 300 ∧
    (portfolioMetrics sampleFarms {}).totalArea = JSNum.fin 340 ∧
    (portfolioMetrics sampleFarms {}).totalCows = JSNum.fin 400 := by
  have hsw : (portfolioMetrics sampleFarms southwestSelection).filteredFarms =
      [greenValley, oakTree] := by decide
  have hall : (portfolioMetrics sampleFarms {}).filteredFarms =
      [greenValley, hillTop, oakTree] := by decide
  refine ⟨?_, by decide, ?_, ?_, ?_, ?_⟩
  · intro farms inputs
    rw [← filteredFarms_eq_filter, ← foldl_add_eq_sum, ← foldl_add_eq_sum]
    exact ⟨rfl, rfl⟩
  · rw [portfolioMetrics_eq_summarize, hsw]
    simp [summarize, greenValley, oakTree]
    norm_num
  · rw [portfolioMetrics_eq_summarize, hsw]
    simp [summarize, greenValley, oakTree]
    norm_num
  · rw [portfolioMetrics_eq_summarize, hall]
    simp [summarize, greenValley, hillTop, oakTree]
    norm_num
  · rw [portfolioMetrics_eq_summarize, hall]
    simp [summarize, greenValley, hillTop, oakTree]
    norm_num

/-! ## Idempotence -/

/-- Claim C10: running the aggregator with the same selection on the filtered
list it produced gives the same filtered list and the same summary. -/
theorem portfolioMetrics_idempotent (farms : List Farm) (inputs : Inputs) :
    (portfolioMetrics (portfolioMetrics farms inputs).filteredFarms inputs).filteredFarms =
      (portfolioMetrics farms inputs).filteredFarms ∧
    portfolioMetrics (portfolioMetrics farms inputs).filteredFarms inputs =
      portfolioMetrics farms inputs := by
  have hf : (portfolioMetrics (portfolioMetrics farms inputs).filteredFarms inputs).filteredFarms =
      (portfolioMetrics farms inputs).filteredFarms := by
    rw [filteredFarms_eq_filter (portfolioMetrics farms inputs).filteredFarms,
      filteredFarms_eq_filter farms, List.filter_filter]
    simp
  refine ⟨hf, ?_⟩
  rw [portfolioMetrics_eq_summarize (portfolioMetrics farms inputs).filteredFarms, hf]
  rfl

/-! ## Order of the two filters -/

/-- The swapped filter step retains exactly the selected farms. -/
theorem filterTypeFirst_eq_filter (farms : List Farm) (inputs : Inputs) :
    filterTypeFirst farms inputs = farms.filter (fun f => decide (Selected inputs f)) := by
  simp only [filterTypeFirst, Selected]
  by_cases hr : inputs.selectedRegion = "all" <;>
    by_cases ht : inputs.selectedFarmType = "all"
  · simp [hr, ht]
  · simp only [hr, ht, bne_self_eq_false, Bool.false_eq_true, if_false, true_or, true_and,
      false_or, bne_iff_ne, ne_eq, not_false_eq_true, if_true]
    apply List.filter_congr
    intro f _
    by_cases h : f.type = inputs.selectedFarmType <;> simp [h]
  · simp only [hr, ht, bne_self_eq_false, Bool.false_eq_true, if_false, true_or, and_true,
      false_or, bne_iff_ne, ne_eq, not_false_eq_true, if_true]
    apply List.filter_congr
    intro f _
    by_cases h : f.region = inputs.selectedRegion <;> simp [h]
  · simp only [hr, ht, false_or, bne_iff_ne, ne_eq, not_false_eq_true, if_true,
      List.filter_filter]
    apply List.filter_congr
    intro f _
    by_cases h : f.region = inputs.selectedRegion <;>
      by_cases h2 : f.type = inputs.selectedFarmType <;> simp [h, h2]

/-- Claim C11: filtering by region first and farm type second, as the code
does, gives the same filtered list as filtering by farm type first and region
second, and hence the same summary. -/
theorem filter_order_irrelevant (farms : List Farm) (inputs : Inputs) :
    (portfolioMetrics farms inputs).filteredFarms = filterTypeFirst farms inputs ∧
    portfolioMetrics farms inputs = summarize (filterTypeFirst farms inputs) := by
  have h : (portfolioMetrics farms inputs).filteredFarms = filterTypeFirst farms inputs := by
    rw [filteredFarms_eq_filter, filterTypeFirst_eq_filter]
  refine ⟨h, ?_⟩
  rw [← h]
  rfl

/-! ## Zero counts on an empty filtered set -/

/-- Claim C12: when the filtered set is empty the summary reports zero farms,
zero area, zero cows, zero milk, and zero in each of the four risk buckets. -/
theorem empty_filter_zero_counts (farms : List Farm) (inputs : Inputs)
    (h : (portfolioMetrics farms inputs).filteredFarms = []) :
    (portfolioMetrics farms inputs).totalFarms = 0 ∧
    (portfolioMetrics farms inputs).totalArea = JSNum.fin 0 ∧
    (portfolioMetrics farms inputs).totalCows = JSNum.fin 0 ∧
    (portfolioMetrics farms inputs).totalMilk = JSNum.fin 0 ∧
    (portfolioMetrics farms inputs).riskDistribution =
      { low := 0, medium := 0, high := 0, critical := 0 } := by
  rw [portfolioMetrics_eq_summarize, h]
  simp [summarize, JSNum.fin_div_fin]

/-- Witness of `empty_filter_zero_counts` on the sample collection. -/
theorem empty_filter_zero_counts_witness :
    (portfolioMetrics sampleFarms emptySelection).filteredFarms = [] ∧
    ((portfolioMetrics sampleFarms emptySelection).totalFarms = 0 ∧
    (portfolioMetrics sampleFarms emptySelection).totalArea = JSNum.fin 0 ∧
    (portfolioMetrics sampleFarms emptySelection).totalCows = JSNum.fin 0 ∧
    (portfolioMetrics sampleFarms emptySelection).totalMilk = JSNum.fin 0 ∧
    (portfolioMetrics sampleFarms emptySelection).riskDistribution =
      { low := 0, medium := 0, high := 0, critical := 0 }) :=
  ⟨by decide, empty_filter_zero_counts sampleFarms emptySelection (by decide)⟩

/-! ## Independence from the informational fields -/

/-- Related lists have equal images under a function that respects the relation. -/
theorem forall2_map_eq {β : Type} (R : Farm → Farm → Prop) (g : Farm → β)
    (hg : ∀ a b, R a b → g a = g b) (l₁ l₂ : List Farm) (h : List.Forall₂ R l₁ l₂) :
    l₁.map g = l₂.map g := by
  induction h with
  | nil => rfl
  | cons hab _ ih => simp only [List.map_cons, hg _ _ hab, ih]

/-- Filtering related lists by a test that respects the relation gives
related lists. -/
theorem forall2_filter (R : Farm → Farm → Prop) (p : Farm → Bool)
    (hp : ∀ a b, R a b → p a = p b) (l₁ l₂ : List Farm) (h : List.Forall₂ R l₁ l₂) :
    List.Forall₂ R (l₁.filter p) (l₂.filter p) := by
  induction h with
  | nil => exact List.Forall₂.nil
  | @cons a b _ _ hab _ ih =>
    simp only [List.filter_cons, ← hp a b hab]
    cases p a
    · simpa using ih
    · simpa using List.Forall₂.cons hab ih

/-- The reductions of `summarize` give equal numeric fields on lists that
agree on the aggregated fields. -/
theorem summarize_agree (l₁ l₂ : List Farm) (h : List.Forall₂ AgreeOnAggregated l₁ l₂) :
    (summarize l₁).totalFarms = (summarize l₂).totalFarms ∧
    (summarize l₁).totalArea = (summarize l₂).totalArea ∧
    (summarize l₁).totalCows = (summarize l₂).totalCows ∧
    (summarize l₁).totalMilk = (summarize l₂).totalMilk ∧
    (summarize l₁).avgBiodiversity = (summarize l₂).avgBiodiversity ∧
    (summarize l₁).avgWaterEfficiency = (summarize l₂).avgWaterEfficiency ∧
    (summarize l₁).avgNutrientEfficiency = (summarize l₂).avgNutrientEfficiency ∧
    (summarize l₁).complianceRates = (summarize l₂).complianceRates ∧
    (summarize l₁).riskDistribution = (summarize l₂).riskDistribution := by
  have hlen : l₁.length = l₂.length := h.length_eq
  have hfold : ∀ g : Farm → JSNum, (∀ a b, AgreeOnAggregated a b → g a = g b) →
      l₁.foldl (fun sum f => sum + g f) (JSNum.fin 0) =
        l₂.foldl (fun sum f => sum + g f) (JSNum.fin 0) := by
    intro g hg
    rw [foldl_add_eq_sum, foldl_add_eq_sum, forall2_map_eq _ g hg l₁ l₂ h]
  have hcount : ∀ p : Farm → Bool, (∀ a b, AgreeOnAggregated a b → p a = p b) →
      (l₁.filter p).length = (l₂.filter p).length :=
    fun p hp => (forall2_filter _ p hp l₁ l₂ h).length_eq
  have harea := hfold (fun f => f.area) (fun a b hab => hab.2.2.1)
  have hcows := hfold (fun f => f.cows) (fun a b hab => hab.2.2.2.1)
  have hmilk := hfold (fun f => f.cows * f.milkYield)
    (fun a b hab => by simp only [hab.2.2.2.1, hab.2.2.2.2.1])
  have hbio := hfold (fun f => f.metrics.biodiversityScore) (fun a b hab => hab.2.2.2.2.2.2.1)
  have hwat := hfold (fun f => f.metrics.waterEfficiency) (fun a b hab => hab.2.2.2.2.2.2.2.1)
  have hnut := hfold (fun f => f.metrics.nutrientEfficiency)
    (fun a b hab => hab.2.2.2.2.2.2.2.2.1)
  have htnfd := hcount (fun f => f.compliance.tnfd)
    (fun a b hab => by simp only [hab.2.2.2.2.2.1])
  have hnvz := hcount (fun f => f.compliance.nvz)
    (fun a b hab => by simp only [hab.2.2.2.2.2.1])
  have hsfi := hcount (fun f => f.compliance.sfi)
    (fun a b hab => by simp only [hab.2.2.2.2.2.1])
  have hwp := hcount (fun f => f.compliance.waterPermit)
    (fun a b hab => by simp only [hab.2.2.2.2.2.1])
  have hlow := hcount (fun f => f.metrics.riskScore.le (JSNum.fin 25))
    (fun a b hab => by simp only [hab.2.2.2.2.2.2.2.2.2])
  have hmed := hcount (fun f =>
      f.metrics.riskScore.gt (JSNum.fin 25) && f.metrics.riskScore.le (JSNum.fin 50))
    (fun a b hab => by simp only [hab.2.2.2.2.2.2.2.2.2])
  have hhigh := hcount (fun f =>
      f.metrics.riskScore.gt (JSNum.fin 50) && f.metrics.riskScore.le (JSNum.fin 75))
    (fun a b hab => by simp only [hab.2.2.2.2.2.2.2.2.2])
  have hcrit := hcount (fun f => f.metrics.riskScore.gt (JSNum.fin 75))
    (fun a b hab => by simp only [hab.2.2.2.2.2.2.2.2.2])
  simp only [summarize, hlen, harea, hcows, hmilk, hbio, hwat, hnut, htnfd, hnvz, hsfi, hwp,
    hlow, hmed, hhigh, hcrit, and_self]

/-- Claim C13: two farm collections of equal length that agree farm by farm
on the aggregated fields, whatever their timestamps and alert counts, have for
every selection summaries with equal totals, means, compliance rates and risk
distribution. -/
theorem summary_ignores_informational_fields (farms₁ farms₂ : List Farm) (inputs : Inputs)
    (h : List.Forall₂ AgreeOnAggregated farms₁ farms₂) :
    (portfolioMetrics farms₁ inputs).totalFarms = (portfolioMetrics farms₂ inputs).totalFarms ∧
    (portfolioMetrics farms₁ inputs).totalArea = (portfolioMetrics farms₂ inputs).totalArea ∧
    (portfolioMetrics farms₁ inputs).totalCows = (portfolioMetrics farms₂ inputs).totalCows ∧
    (portfolioMetrics farms₁ inputs).totalMilk = (portfolioMetrics farms₂ inputs).totalMilk ∧
    (portfolioMetrics farms₁ inputs).avgBiodiversity =
      (portfolioMetrics farms₂ inputs).avgBiodiversity ∧
    (portfolioMetrics farms₁ inputs).avgWaterEfficiency =
      (portfolioMetrics farms₂ inputs).avgWaterEfficiency ∧
    (portfolioMetrics farms₁ inputs).avgNutrientEfficiency =
      (portfolioMetrics farms₂ inputs).avgNutrientEfficiency ∧
    (portfolioMetrics farms₁ inputs).complianceRates =
      (portfolioMetrics farms₂ inputs).complianceRates ∧
    (portfolioMetrics farms₁ inputs).riskDistribution =
      (portfolioMetrics farms₂ inputs).riskDistribution := by
  have hsel : ∀ a b, AgreeOnAggregated a b →
      decide (Selected inputs a) = decide (Selected inputs b) := by
    intro a b hab
    simp only [Selected, hab.1, hab.2.1]
  have hf : List.Forall₂ AgreeOnAggregated (portfolioMetrics farms₁ inputs).filteredFarms
      (portfolioMetrics farms₂ inputs).filteredFarms := by
    rw [filteredFarms_eq_filter, filteredFarms_eq_filter]
    exact forall2_filter _ _ hsel farms₁ farms₂ h
  rw [portfolioMetrics_eq_summarize farms₁, portfolioMetrics_eq_summarize farms₂]
  exact summarize_agree _ _ hf

/-- Witness of `summary_ignores_informational_fields`: the sample collection
and its refreshed copy agree on the aggregated fields, are different lists,
and have equal numeric summaries. -/
theorem summary_ignores_informational_fields_witness :
    List.Forall₂ AgreeOnAggregated sampleFarms sampleFarmsRefreshed ∧
    sampleFarms ≠ sampleFarmsRefreshed ∧
    ((portfolioMetrics sampleFarms southwestSelection).totalFarms =
      (portfolioMetrics sampleFarmsRefreshed southwestSelection).totalFarms ∧
    (portfolioMetrics sampleFarms southwestSelection).totalArea =
      (portfolioMetrics sampleFarmsRefreshed southwestSelection).totalArea ∧
    (portfolioMetrics sampleFarms southwestSelection).totalCows =
      (portfolioMetrics sampleFarmsRefreshed southwestSelection).totalCows ∧
    (portfolioMetrics sampleFarms southwestSelection).totalMilk =
      (portfolioMetrics sampleFarmsRefreshed southwestSelection).totalMilk ∧
    (portfolioMetrics sampleFarms southwestSelection).avgBiodiversity =
      (portfolioMetrics sampleFarmsRefreshed southwestSelection).avgBiodiversity ∧
    (portfolioMetrics sampleFarms southwestSelection).avgWaterEfficiency =
      (portfolioMetrics sampleFarmsRefreshed southwestSelection).avgWaterEfficiency ∧
    (portfolioMetrics sampleFarms southwestSelection).avgNutrientEfficiency =
      (portfolioMetrics sampleFarmsRefreshed southwestSelection).avgNutrientEfficiency ∧
    (portfolioMetrics sampleFarms southwestSelection).complianceRates =
      (portfolioMetrics sampleFarmsRefreshed southwestSelection).complianceRates ∧
    (portfolioMetrics sampleFarms southwestSelection).riskDistribution =
      (portfolioMetrics sampleFarmsRefreshed southwestSelection).riskDistribution) :=
  have hagree : List.Forall₂ AgreeOnAggregated sampleFarms sampleFarmsRefreshed :=
    List.Forall₂.cons ⟨rfl, rfl, rfl, rfl, rfl, rfl, rfl, rfl, rfl, rfl⟩
      (List.Forall₂.cons ⟨rfl, rfl, rfl, rfl, rfl, rfl, rfl, rfl, rfl, rfl⟩
        (List.Forall₂.cons ⟨rfl, rfl, rfl, rfl, rfl, rfl, rfl, rfl, rfl, rfl⟩
          List.Forall₂.nil))
  ⟨hagree, by decide,
    summary_ignores_informational_fields sampleFarms sampleFarmsRefreshed southwestSelection
      hagree⟩

/-! ## The generated farms -/

/-- Every generated record is the record of one of the indices 0 to 11. -/
theorem mem_generateSampleFarms (rand : Nat → ℚ) (now : Nat → Int) (f : Farm)
    (hf : f ∈ generateSampleFarms rand now) : ∃ i, i < 12 ∧ f = generateFarm rand now i := by
  simp only [generateSampleFarms, List.mem_map, List.mem_range] at hf
  obtain ⟨i, hi, rfl⟩ := hf
  exact ⟨i, hi, rfl⟩

/-- The risk score of the record of index `i` is 100 times the value of the
thirteenth call of `Math.random()` made for that record. -/
theorem generateFarm_riskScore (rand : Nat → ℚ) (now : Nat → Int) (i : Nat) :
    (generateFarm rand now i).metrics.riskScore = JSNum.fin (100 * rand (15 * i + 12)) := by
  simp only [generateFarm, JSNum.fin_mul_fin, mul_comm]

/-- Claim C14: for a random source with values in `[0, 1)`, the generated
record at index `i` has as risk score 100 times the value `r` that the source
returned at the call that computes it (call `15 * i + 12` of the run), and
every generated record has such a score, a finite value between 0 and 100. -/
theorem generated_riskScore_in_range (rand : Nat → ℚ) (now : Nat → Int)
    (hrand : ValidRandom rand) :
    (∀ i, i < 12 →
      ((generateSampleFarms rand now).get? i).map (fun f => f.metrics.riskScore) =
        some (JSNum.fin (100 * rand (15 * i + 12)))) ∧
    (∀ f ∈ generateSampleFarms rand now,
      (∃ i, i < 12 ∧ (generateSampleFarms rand now).get? i = some f ∧
        f.metrics.riskScore = JSNum.fin (100 * rand (15 * i + 12))) ∧
      JSNum.InRange 0 100 f.metrics.riskScore) := by
  constructor
  · intro i hi
    simp only [generateSampleFarms, List.get?_eq_getElem?, List.getElem?_map,
      List.getElem?_range hi, Option.map_some', generateFarm_riskScore]
  · intro f hf
    obtain ⟨i, hi, rfl⟩ := mem_generateSampleFarms rand now f hf
    obtain ⟨h0, h1⟩ := hrand (15 * i + 12)
    have hscore := generateFarm_riskScore rand now i
    refine ⟨⟨i, hi, ?_, hscore⟩, 100 * rand (15 * i + 12), hscore, ?_, ?_⟩
    · simp only [generateSampleFarms, List.get?_eq_getElem?, List.getElem?_map,
        List.getElem?_range hi, Option.map_some']
    · positivity
    · linarith

/-- Witness of `generated_riskScore_in_range` for a source whose values differ
from call to call: the records at indices 0, 1 and 11 get the distinct risk
scores 20/3, 15 and 295/3, from the calls 12, 27 and 177. -/
theorem generated_riskScore_in_range_witness :
    ValidRandom rampRandom ∧
    ((generateSampleFarms rampRandom epochClock).get? 0).map
      (fun f => f.metrics.riskScore) = some (JSNum.fin (20 / 3)) ∧
    ((generateSampleFarms rampRandom epochClock).get? 1).map
      (fun f => f.metrics.riskScore) = some (JSNum.fin 15) ∧
    ((generateSampleFarms rampRandom epochClock).get? 11).map
      (fun f => f.metrics.riskScore) = some (JSNum.fin (295 / 3)) ∧
    (∀ f ∈ generateSampleFarms rampRandom epochClock,
      JSNum.InRange 0 100 f.metrics.riskScore) :=
  have hvalid : ValidRandom rampRandom := fun k => by
    have hk : ((k % 180 : Nat) : ℚ) < 180 := by exact_mod_cast Nat.mod_lt k (by norm_num)
    have h0 : (0 : ℚ) ≤ ((k % 180 : Nat) : ℚ) := by positivity
    simp only [rampRandom]
    constructor
    · positivity
    · rw [div_lt_one (by norm_num)]
      exact hk
  have h := generated_riskScore_in_range rampRandom epochClock hvalid
  ⟨hvalid,
    (h.1 0 (by norm_num)).trans (by simp only [rampRandom]; norm_num),
    (h.1 1 (by norm_num)).trans (by simp only [rampRandom]; norm_num),
    (h.1 11 (by norm_num)).trans (by simp only [rampRandom]; norm_num),
    fun f hf => (h.2 f hf).2⟩

/-- For a random source with values in `[0, 1)`, every generated record has a
positive finite area, herd size and yield per animal. -/
theorem generated_scale_positive (rand : Nat → ℚ) (now : Nat → Int)
    (hrand : ValidRandom rand) :
    ∀ f ∈ generateSampleFarms rand now,
      (∃ q : ℚ, f.area = JSNum.fin q ∧ 0 < q) ∧
      (∃ q : ℚ, f.cows = JSNum.fin q ∧ 0 < q) ∧
      (∃ q : ℚ, f.milkYield = JSNum.fin q ∧ 0 < q) := by
  intro f hf
  obtain ⟨i, _, rfl⟩ := mem_generateSampleFarms rand now f hf
  have h0 := (hrand (15 * i + 0)).1
  have h1 := (hrand (15 * i + 1)).1
  have h2 := (hrand (15 * i + 2)).1
  refine ⟨⟨_, rfl, ?_⟩, ⟨_, rfl, ?_⟩, ⟨_, rfl, ?_⟩⟩ <;> positivity

/-- Claim C15, the code at the failing input: with the random source that
returns one quarter at every call, all twelve generated records have the
herd size 137.5, which is positive but is not an integer. -/
theorem generated_cows_not_integer :
    ValidRandom quarterRandom ∧
    (generateSampleFarms quarterRandom epochClock).length = 12 ∧
    ∀ f ∈ generateSampleFarms quarterRandom epochClock,
      f.cows = JSNum.fin (275 / 2) ∧ ¬ ∃ n : ℤ, f.cows = JSNum.fin n := by
  refine ⟨fun _ => ?_, by simp [generateSampleFarms], ?_⟩
  · simp only [quarterRandom]
    norm_num
  · intro f hf
    obtain ⟨i, _, rfl⟩ := mem_generateSampleFarms _ _ f hf
    have hc : (generateFarm quarterRandom epochClock i).cows = JSNum.fin (275 / 2) := by
      simp only [generateFarm, quarterRandom, JSNum.fin_mul_fin, JSNum.fin_add_fin]
      norm_num
    refine ⟨hc, ?_⟩
    rw [hc]
    rintro ⟨n, hn⟩
    have hq : (275 / 2 : ℚ) = n := JSNum.fin.inj hn
    have h2 : (275 : ℚ) = 2 * n := by linarith
    have h3 : (275 : ℤ) = 2 * n := by exact_mod_cast h2
    omega

/-- In a list whose ids are pairwise distinct, looking up the id of a member
finds that member. -/
theorem findFarm_of_nodup (l : List Farm) (hnd : (l.map (fun f => f.id)).Nodup)
    (f : Farm) (hf : f ∈ l) : findFarm l f.id = some f := by
  induction l with
  | nil => simp at hf
  | cons x xs ih =>
    simp only [List.map_cons, List.nodup_cons] at hnd
    simp only [findFarm, List.find?_cons]
    rcases List.mem_cons.mp hf with rfl | hmem
    · simp
    · have hne : x.id ≠ f.id := by
        intro heq
        exact hnd.1 (heq ▸ List.mem_map_of_mem (fun g => g.id) hmem)
      have hb : (x.id == f.id) = false := by simpa using hne
      rw [hb]
      exact ih hnd.2 hmem

/-- The ids of the generated records do not depend on the random source. -/
theorem generated_ids_eq (rand : Nat → ℚ) (now : Nat → Int) :
    (generateSampleFarms rand now).map (fun f => f.id) =
      ["FARM_001", "FARM_002", "FARM_003", "FARM_004", "FARM_005", "FARM_006",
        "FARM_007", "FARM_008", "FARM_009", "FARM_010", "FARM_011", "FARM_012"] := by
  simp only [generateSampleFarms, List.map_map]
  have : ((fun f : Farm => f.id) ∘ generateFarm rand now) =
      fun i => "FARM_" ++ padStart (toString (i + 1)) 3 '0' := rfl
  rw [this]
  decide

/-- Claim C16: the generator returns 12 records; the record at index `i` has
the id FARM_ followed by `i + 1` padded with zeros to three digits, from
FARM_001 to FARM_012; the ids are pairwise distinct; and looking up the id of
a generated record among the generated records finds exactly that record. -/
theorem generated_ids_unique (rand : Nat → ℚ) (now : Nat → Int) :
    (generateSampleFarms rand now).length = 12 ∧
    (generateSampleFarms rand now).map (fun f => f.id) =
      ["FARM_001", "FARM_002", "FARM_003", "FARM_004", "FARM_005", "FARM_006",
        "FARM_007", "FARM_008", "FARM_009", "FARM_010", "FARM_011", "FARM_012"] ∧
    (∀ i, i < 12 → ((generateSampleFarms rand now).map (fun f => f.id)).get? i =
      some ("FARM_" ++ padStart (toString (i + 1)) 3 '0')) ∧
    ((generateSampleFarms rand now).map (fun f => f.id)).Nodup ∧
    (∀ f ∈ generateSampleFarms rand now,
      findFarm (generateSampleFarms rand now) f.id = some f) := by
  have hnd : ((generateSampleFarms rand now).map (fun f => f.id)).Nodup := by
    rw [generated_ids_eq]
    decide
  refine ⟨by simp [generateSampleFarms], generated_ids_eq rand now, ?_, hnd, ?_⟩
  · intro i hi
    rw [generated_ids_eq]
    interval_cases i <;> decide
  · intro f hf
    exact findFarm_of_nodup _ hnd f hf

/-! ## The threshold table -/

/-- Claim C17: the threshold table has exactly the six categories
waterStress, biodiversityRisk, nutrientRunoff, soilDegradation, floodRisk and
droughtRisk, and in each entry low < medium < high < critical. -/
theorem thresholds_six_ascending :
    TNFD_THRESHOLDS.map (fun e => e.1) =
      ["waterStress", "biodiversityRisk", "nutrientRunoff", "soilDegradation", "floodRisk",
        "droughtRisk"] ∧
    ∀ e ∈ TNFD_THRESHOLDS,
      e.2.low.lt e.2.medium = true ∧ e.2.medium.lt e.2.high = true ∧
        e.2.high.lt e.2.critical = true := by
  refine ⟨by decide, ?_⟩
  intro e he
  simp only [TNFD_THRESHOLDS, List.mem_cons, List.mem_singleton, List.not_mem_nil,
    or_false] at he
  rcases he with rfl | rfl | rfl | rfl | rfl | rfl <;>
    simp only [JSNum.lt, decide_eq_true_eq] <;> norm_num

/-! ## The chat mock as a transition system -/

/-- In every reachable chat state a callback is pending exactly while
`isLoading` is true, and then exactly one. -/
theorem reachable_pending (s : ChatState) (hs : Reachable s) :
    s.pendingTimers = if s.isLoading then [1000] else [] := by
  induction hs with
  | init => rfl
  | step s t _ hstep ih =>
    cases hstep with
    | edit text => exact ih
    | send =>
      unfold sendMessage
      by_cases hrej : (jsTrim s.currentMessage == "" || s.isLoading) = true
      · rw [if_pos hrej]
        exact ih
      · rw [if_neg hrej]
        have hload : s.isLoading = false := by
          cases hl : s.isLoading
          · rfl
          · simp [hl] at hrej
        simp [ih, hload]
    | fire _ h =>
      unfold fireTimer at h
      cases hp : s.pendingTimers with
      | nil => simp [hp] at h
      | cons d rest =>
        rw [hp] at h
        simp only [Option.some.injEq] at h
        subst h
        cases hl : s.isLoading
        · simp [hl, hp] at ih
        · simp only [hl, hp, if_true, List.cons.injEq] at ih
          simp [timerCallback, ih.2]

/-- In every reachable chat state the assistant messages and the pending
callbacks together are as many as the user messages. -/
theorem reachable_counts (s : ChatState) (hs : Reachable s) :
    countType "assistant" s.chatMessages + s.pendingTimers.length =
      countType "user" s.chatMessages := by
  induction hs with
  | init => rfl
  | step s t _ hstep ih =>
    cases hstep with
    | edit text => exact ih
    | send =>
      unfold sendMessage
      by_cases hrej : (jsTrim s.currentMessage == "" || s.isLoading) = true
      · rw [if_pos hrej]
        exact ih
      · rw [if_neg hrej]
        simp only [countType, List.countP_append, List.length_append, List.length_singleton,
          List.countP_cons, List.countP_nil] at ih ⊢
        have h1 : (("user" : String) == "assistant") = false := by decide
        have h2 : (("user" : String) == "user") = true := by decide
        simp only [h1, h2, Bool.false_eq_true, if_false, if_true]
        omega
    | fire _ h =>
      unfold fireTimer at h
      cases hp : s.pendingTimers with
      | nil => simp [hp] at h
      | cons d rest =>
        rw [hp] at h
        simp only [Option.some.injEq] at h
        subst h
        simp only [countType, timerCallback, List.countP_append, List.countP_cons,
          List.countP_nil, hp, List.length_cons] at ih ⊢
        have h1 : (demoReply.type == "assistant") = true := by decide
        have h2 : (demoReply.type == "user") = false := by decide
        simp only [h1, h2, Bool.false_eq_true, if_false, if_true]
        omega

/-- Claim C18: in a reachable chat state whose submission `sendMessage`
accepts, no callback is pending before the call and exactly one after it; the
call appends the user message; when the callback fires the transcript is the
old one followed by the user message and the fixed assistant reply, with
`isLoading` false and nothing pending. Every firing appends exactly the fixed
reply, clears `isLoading` and consumes one timer, and in the state itself
assistant messages plus pending callbacks equal the user messages. -/
theorem chat_one_reply_per_submission (s : ChatState) (hr : Reachable s)
    (hacc : sendAccepts s = true) :
    s.pendingTimers = [] ∧
    (sendMessage s).pendingTimers = [1000] ∧
    (sendMessage s).chatMessages =
      s.chatMessages ++ [{ type := "user", content := jsTrim s.currentMessage }] ∧
    fireTimer (sendMessage s) = some
      { chatMessages :=
          s.chatMessages ++ [{ type := "user", content := jsTrim s.currentMessage }, demoReply]
        currentMessage := ""
        isLoading := false
        pendingTimers := [] } ∧
    (∀ t u : ChatState, fireTimer t = some u →
      u.chatMessages = t.chatMessages ++ [demoReply] ∧ u.isLoading = false ∧
        u.pendingTimers.length + 1 = t.pendingTimers.length) ∧
    countType "assistant" s.chatMessages + s.pendingTimers.length =
      countType "user" s.chatMessages := by
  have hrej : ¬ (jsTrim s.currentMessage == "" || s.isLoading) = true := by
    simpa [sendAccepts] using hacc
  have hload : s.isLoading = false := by
    cases hl : s.isLoading
    · rfl
    · simp [hl] at hrej
  have hpend : s.pendingTimers = [] := by
    have := reachable_pending s hr
    simpa [hload] using this
  refine ⟨hpend, ?_, ?_, ?_, ?_, reachable_counts s hr⟩
  · simp [sendMessage, hrej, hpend]
  · simp [sendMessage, hrej]
  · simp [sendMessage, hrej, hpend, fireTimer, timerCallback]
  · intro t u h
    unfold fireTimer at h
    cases hp : t.pendingTimers with
    | nil => simp [hp] at h
    | cons d rest =>
      rw [hp] at h
      simp only [Option.some.injEq] at h
      subst h
      simp [timerCallback]

/-- Witness of `chat_one_reply_per_submission`: the state reached by typing a
question into the empty chat. -/
theorem chat_one_reply_per_submission_witness :
    Reachable typedChat ∧ sendAccepts typedChat = true ∧
    (sendMessage typedChat).pendingTimers = [1000] ∧
    fireTimer (sendMessage typedChat) = some
      { chatMessages := [{ type := "user", content := "Which farms?" }, demoReply]
        currentMessage := ""
        isLoading := false
        pendingTimers := [] } :=
  have hreach : Reachable typedChat :=
    Reachable.step initialChat typedChat Reachable.init
      (ChatStep.edit initialChat "  Which farms?  ")
  have hacc : sendAccepts typedChat = true := by decide
  have h := chat_one_reply_per_submission typedChat hreach hacc
  ⟨hreach, hacc, h.2.1, by
    have h4 := h.2.2.2.1
    have htrim : jsTrim typedChat.currentMessage = "Which farms?" := by decide
    rw [htrim] at h4
    exact h4⟩

/-! ## Risk level and risk distribution -/

/-- The level returned for a finite score, as a cascade on the rationals. -/
theorem getRiskLevel_level_fin (q : ℚ) :
    (getRiskLevel (JSNum.fin q)).level =
      if q ≤ 25 then "Low" else if q ≤ 50 then "Medium"
      else if q ≤ 75 then "High" else "Critical" := by
  simp only [getRiskLevel, JSNum.le, decide_eq_true_eq]
  split_ifs <;> rfl

/-- For every number other than `NaN`, the level tests agree with the band
tests of the risk distribution. -/
theorem level_eq_code_band (x : JSNum) (hx : x ≠ JSNum.nan) :
    ((getRiskLevel x).level == "Low") = x.le (JSNum.fin 25) ∧
    ((getRiskLevel x).level == "Medium") =
      (x.gt (JSNum.fin 25) && x.le (JSNum.fin 50)) ∧
    ((getRiskLevel x).level == "High") =
      (x.gt (JSNum.fin 50) && x.le (JSNum.fin 75)) ∧
    ((getRiskLevel x).level == "Critical") = x.gt (JSNum.fin 75) := by
  cases x with
  | nan => exact absurd rfl hx
  | posInf => simp [getRiskLevel, JSNum.le, JSNum.gt]
  | negInf => simp [getRiskLevel, JSNum.le, JSNum.gt]
  | fin q =>
    rw [getRiskLevel_level_fin]
    simp only [JSNum.le, JSNum.gt]
    by_cases h1 : q ≤ 25
    · have h4 : ¬ 25 < q := by linarith
      have h5 : ¬ 50 < q := by linarith
      have h6 : ¬ 75 < q := by linarith
      simp [h1, h4, h5, h6]
    · by_cases h2 : q ≤ 50
      · have h4 : 25 < q := by linarith
        have h5 : ¬ 50 < q := by linarith
        have h6 : ¬ 75 < q := by linarith
        simp [h1, h2, h4, h5, h6]
      · by_cases h3 : q ≤ 75
        · have h5 : 50 < q := by linarith
          have h6 : ¬ 75 < q := by linarith
          simp [h1, h2, h3, h5, h6]
        · have h6 : 75 < q := by linarith
          simp [h1, h2, h3, h6]

/-- On `NaN` the two classifications part: `getRiskLevel` falls through to
Critical, while no band test of the risk distribution holds. -/
theorem getRiskLevel_nan :
    (getRiskLevel JSNum.nan).level = "Critical" ∧
    JSNum.nan.gt (JSNum.fin 75) = false ∧ JSNum.nan.le (JSNum.fin 25) = false := by
  decide

/-- Counting with a test equals the length of the filter by any test that
agrees with it on the members of the list. -/
theorem countP_eq_filter_length_of_agree (l : List Farm) (p q : Farm → Bool)
    (h : ∀ f ∈ l, p f = q f) : l.countP p = (l.filter q).length := by
  rw [List.countP_eq_length_filter, List.filter_congr h]

/-- Claim C19: for every real score `getRiskLevel` returns Low exactly when
the score is at most 25, Medium exactly when it is above 25 and at most 50,
High exactly when it is above 50 and at most 75, and Critical exactly when it
is above 75; and when the risk scores of the collection are real, the number
of filtered farms of each level is the matching risk-distribution count. -/
theorem getRiskLevel_matches_distribution (farms : List Farm) (inputs : Inputs)
    (hreal : ∀ f ∈ farms, f.metrics.riskScore.IsReal) :
    (∀ q : ℚ,
      ((getRiskLevel (JSNum.fin q)).level = "Low" ↔ q ≤ 25) ∧
      ((getRiskLevel (JSNum.fin q)).level = "Medium" ↔ 25 < q ∧ q ≤ 50) ∧
      ((getRiskLevel (JSNum.fin q)).level = "High" ↔ 50 < q ∧ q ≤ 75) ∧
      ((getRiskLevel (JSNum.fin q)).level = "Critical" ↔ 75 < q)) ∧
    (portfolioMetrics farms inputs).filteredFarms.countP
        (fun f => (getRiskLevel f.metrics.riskScore).level == "Low") =
      (portfolioMetrics farms inputs).riskDistribution.low ∧
    (portfolioMetrics farms inputs).filteredFarms.countP
        (fun f => (getRiskLevel f.metrics.riskScore).level == "Medium") =
      (portfolioMetrics farms inputs).riskDistribution.medium ∧
    (portfolioMetrics farms inputs).filteredFarms.countP
        (fun f => (getRiskLevel f.metrics.riskScore).level == "High") =
      (portfolioMetrics farms inputs).riskDistribution.high ∧
    (portfolioMetrics farms inputs).filteredFarms.countP
        (fun f => (getRiskLevel f.metrics.riskScore).level == "Critical") =
      (portfolioMetrics farms inputs).riskDistribution.critical := by
  have hmem : ∀ f ∈ (portfolioMetrics farms inputs).filteredFarms,
      f.metrics.riskScore ≠ JSNum.nan := by
    intro f hf
    rw [filteredFarms_eq_filter] at hf
    obtain ⟨q, hq⟩ := hreal f (List.mem_filter.mp hf).1
    rw [hq]
    exact fun hne => JSNum.noConfusion hne
  refine ⟨?_, ?_, ?_, ?_, ?_⟩
  · intro q
    rw [getRiskLevel_level_fin]
    by_cases h1 : q ≤ 25
    · have h4 : ¬ 25 < q := by linarith
      have h5 : ¬ 50 < q := by linarith
      have h6 : ¬ 75 < q := by linarith
      simp [h1, h4, h5, h6]
    · by_cases h2 : q ≤ 50
      · have h4 : 25 < q := by linarith
        have h5 : ¬ 50 < q := by linarith
        have h6 : ¬ 75 < q := by linarith
        simp [h1, h2, h4, h5, h6]
      · by_cases h3 : q ≤ 75
        · have h5 : 50 < q := by linarith
          have h6 : ¬ 75 < q := by linarith
          simp [h1, h2, h3, h5, h6]
        · have h4 : 25 < q := by linarith
          have h5 : 50 < q := by linarith
          have h6 : 75 < q := by linarith
          simp [h1, h2, h3, h4, h5, h6]
  · exact countP_eq_filter_length_of_agree _ _ _
      (fun f hf => (level_eq_code_band _ (hmem f hf)).1)
  · exact countP_eq_filter_length_of_agree _ _ _
      (fun f hf => (level_eq_code_band _ (hmem f hf)).2.1)
  · exact countP_eq_filter_length_of_agree _ _ _
      (fun f hf => (level_eq_code_band _ (hmem f hf)).2.2.1)
  · exact countP_eq_filter_length_of_agree _ _ _
      (fun f hf => (level_eq_code_band _ (hmem f hf)).2.2.2)

/-- Witness of `getRiskLevel_matches_distribution` on the sample collection:
its scores are real, and the one filtered farm of level Low is the one counted
in the low bucket. -/
theorem getRiskLevel_matches_distribution_witness :
    (∀ f ∈ sampleFarms, f.metrics.riskScore.IsReal) ∧
    (portfolioMetrics sampleFarms southwestSelection).filteredFarms.countP
        (fun f => (getRiskLevel f.metrics.riskScore).level == "Low") =
      (portfolioMetrics sampleFarms southwestSelection).riskDistribution.low ∧
    (portfolioMetrics sampleFarms southwestSelection).riskDistribution.low = 1 :=
  have hreal : ∀ f ∈ sampleFarms, f.metrics.riskScore.IsReal := by
    intro f hf
    simp only [sampleFarms, List.mem_cons, List.mem_singleton, List.not_mem_nil,
      or_false] at hf
    rcases hf with rfl | rfl | rfl
    · exact ⟨10, rfl⟩
    · exact ⟨60, rfl⟩
    · exact ⟨90, rfl⟩
  ⟨hreal, (getRiskLevel_matches_distribution sampleFarms southwestSelection hreal).2.1, by
    decide⟩

/-! ## Independence from the other inputs -/

/-- Claim C20: two input records that agree on the selected region and the
selected farm type give, for every farm collection, the same summary and the
same filtered farm list, whatever their other fields are. -/
theorem summary_depends_only_on_selection (farms : List Farm) (inputs₁ inputs₂ : Inputs)
    (hr : inputs₁.selectedRegion = inputs₂.selectedRegion)
    (ht : inputs₁.selectedFarmType = inputs₂.selectedFarmType) :
    portfolioMetrics farms inputs₁ = portfolioMetrics farms inputs₂ ∧
    (portfolioMetrics farms inputs₁).filteredFarms =
      (portfolioMetrics farms inputs₂).filteredFarms := by
  have h : portfolioMetrics farms inputs₁ = portfolioMetrics farms inputs₂ := by
    simp only [portfolioMetrics, hr, ht]
  exact ⟨h, by rw [h]⟩

/-- Witness of `summary_depends_only_on_selection`: the Southwest selection
with the third dropdown at its default and at "compliant". -/
theorem summary_depends_only_on_selection_witness :
    southwestSelection.selectedRegion = compliantSouthwest.selectedRegion ∧
    southwestSelection.selectedFarmType = compliantSouthwest.selectedFarmType ∧
    southwestSelection ≠ compliantSouthwest ∧
    (portfolioMetrics sampleFarms southwestSelection =
        portfolioMetrics sampleFarms compliantSouthwest ∧
      (portfolioMetrics sampleFarms southwestSelection).filteredFarms =
        (portfolioMetrics sampleFarms compliantSouthwest).filteredFarms) :=
  ⟨rfl, rfl, by decide,
    summary_depends_only_on_selection sampleFarms southwestSelection compliantSouthwest rfl rfl⟩

/-! ## Selections over the generated farms -/

/-- The farms that a selection retains among the generated records are the
records of the retained indices, whatever the random source. -/
theorem generated_filteredFarms_eq (rand : Nat → ℚ) (now : Nat → Int) (inputs : Inputs) :
    (portfolioMetrics (generateSampleFarms rand now) inputs).filteredFarms =
      (retainedIndices inputs).map (generateFarm rand now) := by
  rw [filteredFarms_eq_filter, generateSampleFarms, List.filter_map]
  rfl

/-- Claim C21: the generated record at index `i` has region `regions[i mod 5]`
and type `farmTypes[i mod 4]`; each of the 20 selections of a region and a
farm type retains at most one farm, exactly 12 of them retain one farm and
exactly 8 retain none, among them Southwest with Organic Dairy. -/
theorem generated_selection_counts (rand : Nat → ℚ) (now : Nat → Int) :
    (∀ i, i < 12 →
      ((generateSampleFarms rand now).get? i).map (fun f => f.region) = regions.get? (i % 5) ∧
      ((generateSampleFarms rand now).get? i).map (fun f => f.type) =
        farmTypes.get? (i % 4)) ∧
    regionTypeSelections.length = 20 ∧
    (∀ rt ∈ regionTypeSelections,
      (portfolioMetrics (generateSampleFarms rand now)
        (selection rt.1 rt.2)).filteredFarms.length ≤ 1) ∧
    regionTypeSelections.countP (fun rt =>
      (portfolioMetrics (generateSampleFarms rand now)
        (selection rt.1 rt.2)).filteredFarms.length == 1) = 12 ∧
    regionTypeSelections.countP (fun rt =>
      (portfolioMetrics (generateSampleFarms rand now)
        (selection rt.1 rt.2)).filteredFarms.length == 0) = 8 ∧
    ("Southwest", "Organic Dairy") ∈ regionTypeSelections ∧
    (portfolioMetrics (generateSampleFarms rand now)
      (selection "Southwest" "Organic Dairy")).filteredFarms = [] := by
  refine ⟨?_, by decide, ?_, ?_, ?_, by decide, ?_⟩
  · intro i hi
    simp only [generateSampleFarms, List.get?_eq_getElem?, List.getElem?_map,
      List.getElem?_range hi, Option.map_some']
    interval_cases i <;> exact ⟨rfl, rfl⟩
  · intro rt hrt
    rw [generated_filteredFarms_eq, List.length_map]
    revert rt
    decide
  · simp only [generated_filteredFarms_eq, List.length_map]
    decide
  · simp only [generated_filteredFarms_eq, List.length_map]
    decide
  · rw [generated_filteredFarms_eq]
    have h : retainedIndices (selection "Southwest" "Organic Dairy") = [] := by decide
    rw [h]
    rfl

/-! ## The badge of the metric card -/

/-- Claim C22: for every non-zero real status the configuration of the metric
card is `getRiskLevel(status)` and the badge is rendered with it; for status 0
the configuration is the neutral default with an empty level and no badge is
rendered, although `getRiskLevel(0)` is Low. The TNFD Compliance card of a
summary with compliance rate 100 has status 100 - 100 = 0 and so no badge. -/
theorem metricCard_badge_by_truthiness (q : ℚ) (hq : q ≠ 0) :
    statusConfig (some (JSNum.fin q)) = getRiskLevel (JSNum.fin q) ∧
    badgeSlot (some (JSNum.fin q)) =
      BadgeSlot.badge
        ("px-3 py-1 rounded-full text-xs font-medium " ++ (getRiskLevel (JSNum.fin q)).bg ++
          " " ++ (getRiskLevel (JSNum.fin q)).color)
        (getRiskLevel (JSNum.fin q)).level ∧
    statusConfig (some (JSNum.fin 0)) = neutralConfig ∧
    neutralConfig.level = "" ∧
    badgeSlot (some (JSNum.fin 0)) = BadgeSlot.falsy (some (JSNum.fin 0)) ∧
    (badgeSlot (some (JSNum.fin 0))).isBadge = false ∧
    (getRiskLevel (JSNum.fin 0)).level = "Low" ∧
    (∀ summary : PortfolioMetrics, summary.complianceRates.tnfd = JSNum.fin 100 →
      tnfdCardStatus summary = JSNum.fin 0 ∧
      statusConfig (some (tnfdCardStatus summary)) = neutralConfig ∧
      (badgeSlot (some (tnfdCardStatus summary))).isBadge = false) ∧
    (portfolioMetrics sampleFarms southwestSelection).complianceRates.tnfd = JSNum.fin 100 := by
  have hzero : statusConfig (some (JSNum.fin 0)) = neutralConfig := by
    simp [statusConfig, JSNum.truthy]
  have hslot : badgeSlot (some (JSNum.fin 0)) = BadgeSlot.falsy (some (JSNum.fin 0)) := by
    simp [badgeSlot, statusTruthy, JSNum.truthy]
  have hcfg : statusConfig (some (JSNum.fin q)) = getRiskLevel (JSNum.fin q) := by
    simp [statusConfig, JSNum.truthy, hq]
  refine ⟨hcfg, ?_, hzero, rfl, hslot, ?_, ?_, ?_, ?_⟩
  · simp only [badgeSlot, statusTruthy, JSNum.truthy, hcfg]
    simp [hq]
  · rw [hslot]
    rfl
  · simp [getRiskLevel, JSNum.le]
  · intro summary h
    have hst : tnfdCardStatus summary = JSNum.fin 0 := by
      unfold tnfdCardStatus
      rw [h]
      show JSNum.sub (JSNum.fin 100) (JSNum.fin 100) = JSNum.fin 0
      simp [JSNum.sub]
    rw [hst]
    refine ⟨rfl, hzero, ?_⟩
    rw [hslot]
    rfl
  · have hf : (portfolioMetrics sampleFarms southwestSelection).filteredFarms =
        [greenValley, oakTree] := by decide
    rw [portfolioMetrics_eq_summarize, hf]
    simp [summarize, greenValley, oakTree, JSNum.ofNat, JSNum.fin_div_fin]

/-- Witness of `metricCard_badge_by_truthiness` at status 50: the
configuration is that of level Medium and the badge is rendered. -/
theorem metricCard_badge_by_truthiness_witness :
    (50 : ℚ) ≠ 0 ∧
    statusConfig (some (JSNum.fin 50)) = getRiskLevel (JSNum.fin 50) ∧
    (getRiskLevel (JSNum.fin 50)).level = "Medium" ∧
    (badgeSlot (some (JSNum.fin 50))).isBadge = true :=
  have h := metricCard_badge_by_truthiness 50 (by norm_num)
  ⟨by norm_num, h.1, by simp [getRiskLevel, JSNum.le]; norm_num, by rw [h.2.1]; rfl⟩

/-! ## Rejection and acceptance by `sendMessage` -/

/-- A string built from a list of characters is empty exactly when the list is. -/
theorem string_mk_eq_empty_iff (l : List Char) : String.mk l = "" ↔ l = [] := by
  constructor
  · intro h
    have := congrArg String.data h
    simpa using this
  · intro h
    rw [h]

/-- Trimming gives the empty string exactly when every character is white
space; this covers the empty string. -/
theorem jsTrim_eq_empty_iff (s : String) :
    jsTrim s = "" ↔ ∀ c ∈ s.toList, isJSWhitespace c = true := by
  unfold jsTrim
  rw [string_mk_eq_empty_iff, List.reverse_eq_nil_iff, List.dropWhile_eq_nil_iff]
  constructor
  · intro h
    have hall : ∀ c ∈ s.toList.dropWhile isJSWhitespace, isJSWhitespace c = true :=
      fun c hc => h c (List.mem_reverse.mpr hc)
    have hnil : (s.toList.dropWhile isJSWhitespace).dropWhile isJSWhitespace = [] :=
      List.dropWhile_eq_nil_iff.mpr hall
    rw [List.dropWhile_idempotent] at hnil
    exact List.dropWhile_eq_nil_iff.mp hnil
  · intro h c hc
    have hnil : s.toList.dropWhile isJSWhitespace = [] := List.dropWhile_eq_nil_iff.mpr h
    rw [hnil] at hc
    simp at hc

/-- Claim C23: `sendMessage` rejects exactly when the current message is
empty or only white space, or `isLoading` is true, and then the whole state,
pending callbacks included, is unchanged. Otherwise it appends the one entry
of type user with the trimmed message at the end of the transcript, leaves the
earlier entries as they were, empties the current message, sets `isLoading`
and schedules one callback. The three sample states show each case. -/
theorem sendMessage_reject_or_append (s : ChatState) :
    (sendAccepts s = false ↔
      ((∀ c ∈ s.currentMessage.toList, isJSWhitespace c = true) ∨ s.isLoading = true)) ∧
    (sendAccepts s = false → sendMessage s = s) ∧
    (sendAccepts s = true →
      (sendMessage s).chatMessages =
        s.chatMessages ++ [{ type := "user", content := jsTrim s.currentMessage }] ∧
      (sendMessage s).chatMessages.length = s.chatMessages.length + 1 ∧
      (sendMessage s).chatMessages.take s.chatMessages.length = s.chatMessages ∧
      (sendMessage s).currentMessage = "" ∧
      (sendMessage s).isLoading = true ∧
      (sendMessage s).pendingTimers = s.pendingTimers ++ [1000]) ∧
    sendMessage blankChat = blankChat ∧
    sendMessage loadingChat = loadingChat ∧
    sendMessage typedChat =
      { chatMessages := [{ type := "user", content := "Which farms?" }]
        currentMessage := ""
        isLoading := true
        pendingTimers := [1000] } := by
  refine ⟨?_, ?_, ?_, by decide, by decide, by decide⟩
  · rw [← jsTrim_eq_empty_iff]
    unfold sendAccepts
    by_cases h1 : jsTrim s.currentMessage = "" <;> cases h2 : s.isLoading <;> simp [h1]
  · intro h
    have hrej : (jsTrim s.currentMessage == "" || s.isLoading) = true := by
      unfold sendAccepts at h
      cases hb : (jsTrim s.currentMessage == "" || s.isLoading)
      · rw [hb] at h
        exact absurd h (by decide)
      · rfl
    simp only [sendMessage, hrej, if_true]
  · intro h
    have hrej : ¬ (jsTrim s.currentMessage == "" || s.isLoading) = true := by
      unfold sendAccepts at h
      intro hcon
      rw [hcon] at h
      exact absurd h (by decide)
    simp [sendMessage, hrej]

/-! ## The derived TNFD metrics as rescalings -/

/-- Multiplication by a positive finite factor distributes over addition. -/
theorem mul_pos_add (c : ℚ) (hc : 0 < c) (a b : JSNum) :
    a * JSNum.fin c + JSNum.fin c * b = JSNum.fin c * (a + b) := by
  have hne : c ≠ 0 := ne_of_gt hc
  show JSNum.add (JSNum.mul a (JSNum.fin c)) (JSNum.mul (JSNum.fin c) b) =
    JSNum.mul (JSNum.fin c) (JSNum.add a b)
  cases a <;> cases b <;>
    simp [JSNum.add, JSNum.mul, JSNum.infTimes, hc, hne, mul_add, mul_comm]

/-- The sum of the rescaled values is the rescaled sum. -/
theorem sum_map_mul_pos (c : ℚ) (hc : 0 < c) (g : Farm → JSNum) (l : List Farm) :
    (l.map (fun f => g f * JSNum.fin c)).sum = JSNum.fin c * (l.map g).sum := by
  induction l with
  | nil => simp [JSNum.zero_def]
  | cons x xs ih =>
    simp only [List.map_cons, List.sum_cons, ih]
    exact mul_pos_add c hc (g x) _

/-- Division by a positive count commutes with a positive finite factor. -/
theorem mul_pos_div (c : ℚ) (hc : 0 < c) (n : ℚ) (hn : 0 < n) (a : JSNum) :
    JSNum.fin c * a / JSNum.fin n = JSNum.fin c * (a / JSNum.fin n) := by
  have hne : c ≠ 0 := ne_of_gt hc
  have hnn : n ≠ 0 := ne_of_gt hn
  have hn0 : 0 ≤ n := le_of_lt hn
  show JSNum.div (JSNum.mul (JSNum.fin c) a) (JSNum.fin n) =
    JSNum.mul (JSNum.fin c) (JSNum.div a (JSNum.fin n))
  cases a <;>
    simp [JSNum.div, JSNum.mul, JSNum.infTimes, hc, hne, hnn, hn0, mul_div_assoc]

/-- Claim C24: over the same filtered farms, `naturalHabitat` is 0.15 times
`totalArea`, `withdrawalIntensity` is 50 times `totalCows`, and for a
non-empty filtered set `speciesRichness` is 0.8 times `avgBiodiversity` and
`dischargeQuality` is the water-permit compliance rate. On the sample
collection with the Southwest selection the mean is 50 and the richness 40. -/
theorem tnfdMetrics_rescalings (farms : List Farm) (inputs : Inputs) :
    (tnfdMetrics (portfolioMetrics farms inputs)).landMetrics.naturalHabitat =
      JSNum.fin 0.15 * (portfolioMetrics farms inputs).totalArea ∧
    (tnfdMetrics (portfolioMetrics farms inputs)).waterMetrics.withdrawalIntensity =
      JSNum.fin 50 * (portfolioMetrics farms inputs).totalCows ∧
    ((portfolioMetrics farms inputs).filteredFarms ≠ [] →
      (tnfdMetrics (portfolioMetrics farms inputs)).biodiversityMetrics.speciesRichness =
        JSNum.fin 0.8 * (portfolioMetrics farms inputs).avgBiodiversity ∧
      (tnfdMetrics (portfolioMetrics farms inputs)).waterMetrics.dischargeQuality =
        (portfolioMetrics farms inputs).complianceRates.waterPermit) ∧
    (portfolioMetrics sampleFarms southwestSelection).filteredFarms ≠ [] ∧
    (portfolioMetrics sampleFarms southwestSelection).avgBiodiversity = JSNum.fin 50 ∧
    (tnfdMetrics (portfolioMetrics sampleFarms
      southwestSelection)).biodiversityMetrics.speciesRichness = JSNum.fin 40 := by
  have hsample : (portfolioMetrics sampleFarms southwestSelection).filteredFarms =
      [greenValley, oakTree] := by decide
  refine ⟨?_, ?_, ?_, by decide, ?_, ?_⟩
  · show (portfolioMetrics farms inputs).filteredFarms.foldl
        (fun sum f => sum + f.area * JSNum.fin 0.15) (JSNum.fin 0) =
      JSNum.fin 0.15 * (portfolioMetrics farms inputs).filteredFarms.foldl
        (fun sum f => sum + f.area) (JSNum.fin 0)
    rw [foldl_add_eq_sum, foldl_add_eq_sum, sum_map_mul_pos 0.15 (by norm_num)]
  · show (portfolioMetrics farms inputs).filteredFarms.foldl
        (fun sum f => sum + f.cows * JSNum.fin 50) (JSNum.fin 0) =
      JSNum.fin 50 * (portfolioMetrics farms inputs).filteredFarms.foldl
        (fun sum f => sum + f.cows) (JSNum.fin 0)
    rw [foldl_add_eq_sum, foldl_add_eq_sum, sum_map_mul_pos 50 (by norm_num)]
  · intro hne
    have hlen : (0 : ℚ) < ((portfolioMetrics farms inputs).filteredFarms.length : ℚ) := by
      have : 0 < (portfolioMetrics farms inputs).filteredFarms.length :=
        List.length_pos.mpr hne
      exact_mod_cast this
    refine ⟨?_, rfl⟩
    show (portfolioMetrics farms inputs).filteredFarms.foldl
          (fun sum f => sum + f.metrics.biodiversityScore * JSNum.fin 0.8) (JSNum.fin 0) /
        JSNum.ofNat (portfolioMetrics farms inputs).filteredFarms.length =
      JSNum.fin 0.8 * ((portfolioMetrics farms inputs).filteredFarms.foldl
          (fun sum f => sum + f.metrics.biodiversityScore) (JSNum.fin 0) /
        JSNum.ofNat (portfolioMetrics farms inputs).filteredFarms.length)
    rw [foldl_add_eq_sum, foldl_add_eq_sum, sum_map_mul_pos 0.8 (by norm_num), JSNum.ofNat,
      mul_pos_div 0.8 (by norm_num) _ hlen]
  · rw [portfolioMetrics_eq_summarize, hsample]
    simp [summarize, greenValley, oakTree, JSNum.ofNat, JSNum.fin_div_fin]
    norm_num
  · simp only [tnfdMetrics, hsample]
    simp [greenValley, oakTree, JSNum.ofNat, JSNum.fin_div_fin]
    norm_num

end EnvMon
